import Mathlib

/-!
Shallow embedding of the Brahmic Engine Telugu-to-Python transpiler
(`src/lexer.py`, `src/keywords.py`, `src/ast_nodes.py`, `src/parser.py`,
`src/transpiler.py`) together with theorems settling the frozen claims.

The lexer is a PLY (`ply.lex`) lexer.  PLY builds one master regular
expression whose alternatives are, in order: the function rules in their
order of definition in the file, then the string rules sorted by
decreasing regex length (ties keep the alphabetical order produced by
`dir()`).  At each position characters in `t_ignore` (space and tab) are
skipped before any rule is tried; the first alternative that matches
wins; a rule function may change the token's type and value or return
nothing (discarding the match).  Those semantics are embedded here
operationally, rule by rule, on `List Char`.

All machine integers involved are Python arbitrary-precision ints,
modelled by `Int`/`Nat`.  Python exceptions are modelled by `Except` with
an explicit error value; `raise X from e` is modelled by a `cause` field.
Mutual recursion in the recursive-descent parser is bounded by an
explicit fuel parameter (Python recursion has no fuel; every theorem
either quantifies over fuel or evaluates at a fuel large enough for the
input at hand, and fuel exhaustion is a distinguished error kind).
-/

namespace BrahmicEngine

/-- Kinds of Python exceptions that can arise in the transpiler, plus the
`outOfFuel` artifact of the fuel-bounded embedding (never raised by the
Python code) and `lexError` for PLY's runtime `LexError`. -/
inductive ErrKind
  | syntaxError
  | valueError
  | typeError
  | attributeError
  | lexError
  | outOfFuel
deriving Repr, DecidableEq

/-- A Python exception: kind, message, and the optional chained cause
(`raise ... from e`). -/
inductive PyErr
  | mk (kind : ErrKind) (msg : String) (cause : Option PyErr)

def PyErr.kind : PyErr → ErrKind
  | .mk k _ _ => k

def PyErr.msg : PyErr → String
  | .mk _ m _ => m

def PyErr.cause : PyErr → Option PyErr
  | .mk _ _ c => c

/-- Shorthand constructors for uncaused exceptions. -/
def pySyntaxError (msg : String) : PyErr := .mk .syntaxError msg none

def pyValueError (msg : String) : PyErr := .mk .valueError msg none

def pyTypeError (msg : String) : PyErr := .mk .typeError msg none

def pyAttributeError (msg : String) : PyErr := .mk .attributeError msg none

def pyLexError (msg : String) : PyErr := .mk .lexError msg none

def fuelErr : PyErr := .mk .outOfFuel "out of fuel" none

/-! ### Python string helpers -/

/-- Python whitespace characters relevant to `str.strip`, `str.split()`
and the regex class `\s` (ASCII scope; the sources only use ASCII). -/
def isPyWs (c : Char) : Bool :=
  c = ' ' || c = '\t' || c = '\n' || c = '\r' || c = '\x0b' || c = '\x0c'

/-- Python regex `\w` (ASCII scope). -/
def isPyWordChar (c : Char) : Bool :=
  c.isAlpha || c.isDigit || c = '_'

def isIdentStart (c : Char) : Bool := c.isAlpha || c = '_'

def isIdentRest (c : Char) : Bool := c.isAlpha || c.isDigit || c = '_'

/-- Python `str.strip()` with no argument (strip whitespace at both ends). -/
def pyStrip (s : String) : String :=
  String.mk (((s.toList.dropWhile isPyWs).reverse.dropWhile isPyWs).reverse)

/-- Python `str.rstrip()` with no argument. -/
def pyRstrip (s : String) : String :=
  String.mk ((s.toList.reverse.dropWhile isPyWs).reverse)

/-- Emptiness test for strings (structurally reducible). -/
def strIsEmpty (s : String) : Bool := s.toList.isEmpty

/-- Python `s.startswith(pre)`. -/
def strStartsWith (s pre : String) : Bool := pre.toList.isPrefixOf s.toList

/-- Python `s.endswith(suf)`. -/
def strEndsWith (s suf : String) : Bool := suf.toList.isSuffixOf s.toList

/-- Python slicing helpers: `s[n:]` and `s[:-n]`. -/
def strDrop (s : String) (n : Nat) : String := String.mk (s.toList.drop n)

def strDropRight (s : String) (n : Nat) : String :=
  String.mk (s.toList.take (s.toList.length - n))

/-- Python `s.replace(pat, sub)`: non-overlapping, left to right (the
patterns used here are nonempty; the fuel is spent one character or one
pattern occurrence at a time, so `length + 1` never runs out). -/
def listReplaceAux (fuel : Nat) (cs pat sub : List Char) : List Char :=
  match fuel with
  | 0 => cs
  | fuel + 1 =>
    match cs with
    | [] => []
    | c :: rest =>
      if pat.isPrefixOf (c :: rest) then
        sub ++ listReplaceAux fuel ((c :: rest).drop pat.length) pat sub
      else c :: listReplaceAux fuel rest pat sub

def strReplace (s pat sub : String) : String :=
  String.mk (listReplaceAux (s.toList.length + 1) s.toList pat.toList sub.toList)

/-- Python `text.split("\n")`: split on every newline, keeping empty
pieces. -/
def splitLinesAux : List Char → List Char → List String
  | [], acc => [String.mk acc.reverse]
  | '\n' :: rest, acc => String.mk acc.reverse :: splitLinesAux rest []
  | c :: rest, acc => splitLinesAux rest (c :: acc)

def pySplitNewline (s : String) : List String := splitLinesAux s.toList []

/-- Python `str.split()` with no argument: split on whitespace runs,
dropping empty pieces. -/
def pySplitWsAux : List Char → List Char → List String
  | [], acc => if acc.isEmpty then [] else [String.mk acc.reverse]
  | c :: rest, acc =>
    if isPyWs c then
      if acc.isEmpty then pySplitWsAux rest []
      else String.mk acc.reverse :: pySplitWsAux rest []
    else pySplitWsAux rest (c :: acc)

def pySplitWs (s : String) : List String := pySplitWsAux s.toList []

/-- Python `pat in s` substring test. -/
def strHasInfix (pat s : String) : Bool :=
  s.toList.tails.any (fun t => pat.toList.isPrefixOf t)

/-- Python `str.isdigit()` (ASCII scope: nonempty and all decimal digits). -/
def pyIsDigit (s : String) : Bool :=
  !s.toList.isEmpty && s.toList.all Char.isDigit

/-- Python `int(...)` on a nonempty decimal digit string. -/
def digitsToInt (cs : List Char) : Int :=
  Int.ofNat (cs.foldl (fun acc c => acc * 10 + (c.toNat - '0'.toNat)) 0)

/-! ### Tokens -/

/-- Token type names, mirroring the `tokens` tuple of `TengLexer` plus
`IN` and `MODULO`, which `TengParser._parse_comparison` and
`TengParser._parse_multiplication` reference even though the lexer never
declares or produces them. -/
inductive TokType
  | NUMBER | STRING | IDENTIFIER
  | TELUGU_KEYWORD
  | PLUS | MINUS | TIMES | DIVIDE
  | EQUALS | LT | LE | GT | GE | NE | ASSIGN
  | LPAREN | RPAREN | LBRACKET | RBRACKET | LBRACE | RBRACE
  | COMMA | DOT | COLON
  | NEWLINE | INDENT | DEDENT
  | CHEPPU
  | IN | MODULO
deriving Repr, DecidableEq

/-- The Python token type string, as interpolated into error messages. -/
def TokType.name : TokType → String
  | .NUMBER => "NUMBER" | .STRING => "STRING" | .IDENTIFIER => "IDENTIFIER"
  | .TELUGU_KEYWORD => "TELUGU_KEYWORD"
  | .PLUS => "PLUS" | .MINUS => "MINUS" | .TIMES => "TIMES" | .DIVIDE => "DIVIDE"
  | .EQUALS => "EQUALS" | .LT => "LT" | .LE => "LE" | .GT => "GT" | .GE => "GE"
  | .NE => "NE" | .ASSIGN => "ASSIGN"
  | .LPAREN => "LPAREN" | .RPAREN => "RPAREN"
  | .LBRACKET => "LBRACKET" | .RBRACKET => "RBRACKET"
  | .LBRACE => "LBRACE" | .RBRACE => "RBRACE"
  | .COMMA => "COMMA" | .DOT => "DOT" | .COLON => "COLON"
  | .NEWLINE => "NEWLINE" | .INDENT => "INDENT" | .DEDENT => "DEDENT"
  | .CHEPPU => "CHEPPU"
  | .IN => "IN" | .MODULO => "MODULO"

/-- A PLY token value: an `int` for `NUMBER` tokens, a string otherwise. -/
inductive TokValue
  | str (s : String)
  | num (n : Int)
deriving Repr, DecidableEq

/-- Python `==` between a token value and a string literal (an int never
equals a string in Python, without raising). -/
def TokValue.eqStr (v : TokValue) (s : String) : Bool :=
  match v with
  | .str t => t = s
  | .num _ => false

/-- Python `f"{value}"` formatting of a token value. -/
def TokValue.text : TokValue → String
  | .str s => s
  | .num n => toString n

/-- A lexer token: type, value, and the line number recorded when the
token was matched (PLY sets `t.lineno` from `lexer.lineno` before the
rule action runs). -/
structure Token where
  type : TokType
  value : TokValue
  lineno : Nat
deriving Repr, DecidableEq

def Token.eqStr (t : Token) (s : String) : Bool := t.value.eqStr s

/-! ### Keyword tables (`src/keywords.py`) -/

/-- `SINGLE_WORD_KEYWORDS` from `keywords.py`, in source order. -/
def SINGLE_WORD_KEYWORDS : List (String × String) :=
  [("okavela", "if"), ("lekapothe", "else"), ("aite", ":"),
   ("vidhanam", "def"), ("ivvu", "return"),
   ("lo", "in"), ("ki", ""),
   ("mariyu", "and"), ("leda", "or"), ("avvakapote", "not"),
   ("Nijam", "True"), ("Abaddam", "False"),
   ("aagipo", "break"),
   ("cheppu", "print")]

/-- `MULTI_WORD_KEYWORDS` from `keywords.py`. -/
def MULTI_WORD_KEYWORDS : List (String × String) :=
  [("munduku vellu", "continue"),
   ("unnanta varaku", "while"),
   ("lekapothe okavela", "elif")]

/-! ### Lexer (`src/lexer.py`)

Rule matchers.  Each matcher is anchored at the current position and
mirrors one PLY rule's regex, including its greedy/lazy backtracking
behaviour, returning the payload the rule action needs plus the
remaining input. -/

/-- Nonempty maximal run of characters satisfying `p` (regex `X+` for a
character class `X`). -/
def takeRun (p : Char → Bool) (cs : List Char) : Option (List Char × List Char) :=
  match cs with
  | [] => none
  | c :: rest =>
    if p c then some (c :: rest.takeWhile p, rest.dropWhile p)
    else none

/-- Match a literal character sequence (regex literal text). -/
def dropLiteral (lit : List Char) (cs : List Char) : Option (List Char) :=
  match lit, cs with
  | [], rest => some rest
  | l :: ls, c :: rest => if c = l then dropLiteral ls rest else none
  | _ :: _, [] => none

/-- `t_NUMBER`, regex `\d+`. -/
def matchNumber (cs : List Char) : Option (List Char × List Char) :=
  takeRun Char.isDigit cs

/-- Body of `t_STRING`, regex `\"([^\\\n]|(\\.))*?\"` after the opening
quote.  The lazy `*?` closes at the first quote that is not consumed by a
backslash escape; `.` does not match a newline, and an unescaped newline
makes the whole rule fail.  Returns the content between the quotes (with
escape sequences kept verbatim) and the input after the closing quote. -/
def stringBody : List Char → Option (List Char × List Char)
  | [] => none
  | '"' :: rest => some ([], rest)
  | '\\' :: [] => none
  | '\\' :: c :: rest =>
    if c = '\n' then none
    else match stringBody rest with
      | some (body, r) => some ('\\' :: c :: body, r)
      | none => none
  | '\n' :: _ => none
  | c :: rest =>
    match stringBody rest with
    | some (body, r) => some (c :: body, r)
    | none => none

/-- `t_STRING`, regex `\"([^\\\n]|(\\.))*?\"`. -/
def matchString (cs : List Char) : Option (List Char × List Char) :=
  match cs with
  | '"' :: rest => stringBody rest
  | _ => none

/-- `t_PRINT_POSTFIX`, regex `\([^)]*\)\s*cheppu`.  Returns the argument
text between the parentheses (which cannot contain a close paren but may
contain newlines) and the remaining input. -/
def matchPostfixPrint (cs : List Char) : Option (String × List Char) :=
  match cs with
  | '(' :: rest =>
    let inner := rest.takeWhile (· ≠ ')')
    match rest.dropWhile (· ≠ ')') with
    | ')' :: rest2 =>
      let rest3 := rest2.dropWhile isPyWs
      match dropLiteral "cheppu".toList rest3 with
      | some rest4 => some (String.mk inner, rest4)
      | none => none
    | _ => none
  | _ => none

/-- One alternative of `t_MULTIWORD_KEYWORD`: literal word, `\s+`, literal
word (the trailing word needs no boundary, exactly like the regex). -/
def matchTwoWords (w1 w2 : String) (cs : List Char) : Option (List Char) :=
  match dropLiteral w1.toList cs with
  | none => none
  | some r1 =>
    match takeRun isPyWs r1 with
    | none => none
    | some (_, r2) => dropLiteral w2.toList r2

/-- `t_MULTIWORD_KEYWORD`, regex
`(munduku\s+vellu|unnanta\s+varaku|lekapothe\s+okavela)`.  Returns the
whitespace-normalized phrase (which is what the action computes with
`re.sub(r"\s+", " ", t.value.strip())`) and the remaining input. -/
def matchMultiword (cs : List Char) : Option (String × List Char) :=
  match matchTwoWords "munduku" "vellu" cs with
  | some rest => some ("munduku vellu", rest)
  | none =>
    match matchTwoWords "unnanta" "varaku" cs with
    | some rest => some ("unnanta varaku", rest)
    | none =>
      match matchTwoWords "lekapothe" "okavela" cs with
      | some rest => some ("lekapothe okavela", rest)
      | none => none

/-- `t_FOR_LOOP_PATTERN`, regex `\w+\s+lo\s+\w+\s+ki`.  Backtracking makes
the first `\w+` a complete word run, forces the second word to be exactly
`lo`, makes the third `\w+` a complete run, and lets the final `ki` be a
mere prefix of the following text.  Returns the pieces
`(w1, ws1, ws2, w3, ws3)` of the matched text and the remaining input. -/
def matchForLoopPattern (cs : List Char) :
    Option (List Char × List Char × List Char × List Char × List Char × List Char) :=
  match takeRun isPyWordChar cs with
  | none => none
  | some (w1, r1) =>
    match takeRun isPyWs r1 with
    | none => none
    | some (ws1, r2) =>
      match dropLiteral ['l', 'o'] r2 with
      | none => none
      | some r3 =>
        match takeRun isPyWs r3 with
        | none => none
        | some (ws2, r4) =>
          match takeRun isPyWordChar r4 with
          | none => none
          | some (w3, r5) =>
            match takeRun isPyWs r5 with
            | none => none
            | some (ws3, r6) =>
              match dropLiteral ['k', 'i'] r6 with
              | none => none
              | some r7 => some (w1, ws1, ws2, w3, ws3, r7)

/-- `t_CONDITIONAL_PATTERN`, regex `okavela\s+[^:]+\s+aite`.  The greedy
`[^:]+` makes the match extend to the last `aite` that is preceded by
whitespace and starts before the first colon.  Returns the matched text
(after `okavela`) split as `(ws1, cond-region, ws, rest)` is not needed;
we return the full matched text and the remaining input. -/
def matchConditional (cs : List Char) : Option (List Char × List Char) :=
  match dropLiteral "okavela".toList cs with
  | none => none
  | some r1 =>
    match takeRun isPyWs r1 with
    | none => none
    | some (ws1, r2) =>
      let limit := (r2.takeWhile (· ≠ ':')).length
      match (List.range' 1 limit).reverse.findSome? (fun k =>
          match takeRun isPyWs (r2.drop k) with
          | none => none
          | some (ws, r3) =>
            match dropLiteral "aite".toList r3 with
            | none => none
            | some r4 =>
              some ("okavela".toList ++ ws1 ++ r2.take k ++ ws ++ "aite".toList, r4)) with
      | some result => some result
      | none => none

/-- The action of `t_CONDITIONAL_PATTERN` re-runs the lazy regex
`okavela\s+(.+?)\s+aite` on the matched text to extract the condition:
after `okavela` and a greedy whitespace run, the shortest nonempty
newline-free run followed by whitespace and `aite`.  Returns `none` when
that regex fails (then the token keeps its undeclared type and PLY raises
`LexError` at runtime). -/
def conditionalActionExtract (value : List Char) : Option String :=
  match dropLiteral "okavela".toList value with
  | none => none
  | some r1 =>
    match takeRun isPyWs r1 with
    | none => none
    | some (_, r2) =>
      (List.range' 1 r2.length).findSome? (fun j =>
        if (r2.take j).contains '\n' then none
        else
          match takeRun isPyWs (r2.drop j) with
          | none => none
          | some (_, r3) =>
            match dropLiteral "aite".toList r3 with
            | some _ => some (String.mk (r2.take j))
            | none => none)

/-- `t_IDENTIFIER`, regex `[a-zA-Z_][a-zA-Z_0-9]*`. -/
def matchIdentifier (cs : List Char) : Option (String × List Char) :=
  match cs with
  | [] => none
  | c :: rest =>
    if isIdentStart c then
      some (String.mk (c :: rest.takeWhile isIdentRest), rest.dropWhile isIdentRest)
    else none

/-- `t_NEWLINE`, regex `\n+`. -/
def matchNewline (cs : List Char) : Option (List Char × List Char) :=
  takeRun (· = '\n') cs

/-- The string rules, in PLY's master-regex order: sorted by decreasing
regex length (all the two-character regexes first), ties in the
alphabetical order `dir()` yields.  `t_WHITESPACE` never fires because
space and tab are in `t_ignore` and PLY skips ignored characters before
trying any rule, so `INDENT`/`DEDENT` are never produced. -/
def stringRules : List (String × TokType) :=
  [(".", .DOT), ("==", .EQUALS), (">=", .GE), ("\x7b", .LBRACE), ("[", .LBRACKET),
   ("<=", .LE), ("(", .LPAREN), ("!=", .NE), ("+", .PLUS), ("\x7d", .RBRACE),
   ("]", .RBRACKET), (")", .RPAREN), ("*", .TIMES),
   ("=", .ASSIGN), (":", .COLON), (",", .COMMA), ("/", .DIVIDE),
   (">", .GT), ("<", .LT), ("-", .MINUS)]

def matchStringRule (cs : List Char) : Option (TokType × List Char) :=
  stringRules.findSome? (fun rule =>
    (dropLiteral rule.1.toList cs).map (fun rest => (rule.2, rest)))

/-- Mutable lexer state: `lexer.lineno`, `TengLexer.paren_count` and
`TengLexer.at_line_start` (`indent_stack` is only touched by the
unreachable `t_WHITESPACE` rule and is omitted). -/
structure LexState where
  lineno : Nat
  parenCount : Int
  atLineStart : Bool
deriving Repr, DecidableEq

def initLexState : LexState := { lineno := 1, parenCount := 0, atLineStart := true }

/-- One iteration of `lex.token()` at a position whose first character is
not ignored: try the rules in master-regex order, run the matching rule's
action.  Returns the emitted token (or `none` when the rule discards the
match, or for the `t_error` skip), the remaining input and the new state. -/
def lexStep (cs : List Char) (st : LexState) :
    Except PyErr (Option Token × List Char × LexState) :=
  match matchNumber cs with
  | some (digits, rest) =>
    .ok (some ⟨.NUMBER, .num (digitsToInt digits), st.lineno⟩, rest, st)
  | none =>
  match matchString cs with
  | some (body, rest) =>
    -- t.value = t.value[1:-1]: outer quotes stripped, escapes kept verbatim
    .ok (some ⟨.STRING, .str (String.mk body), st.lineno⟩, rest, st)
  | none =>
  match matchPostfixPrint cs with
  | some (args, rest) =>
    -- the action always re-matches and rewrites to Python print syntax
    .ok (some ⟨.CHEPPU, .str ("print(" ++ args ++ ")"), st.lineno⟩, rest, st)
  | none =>
  match matchMultiword cs with
  | some (phrase, rest) =>
    match MULTI_WORD_KEYWORDS.lookup phrase with
    | some python => .ok (some ⟨.TELUGU_KEYWORD, .str python, st.lineno⟩, rest, st)
    | none =>
      -- unreachable: the token would keep the undeclared type MULTIWORD_KEYWORD
      .error (pyLexError "Rule t_MULTIWORD_KEYWORD returned an unknown token type")
  | none =>
  match matchForLoopPattern cs with
  | some (w1, ws1, ws2, w3, ws3, rest) =>
    -- action: parts = t.value.split(); guarded rewrite to "for var in iterable"
    let matched := w1 ++ ws1 ++ ['l', 'o'] ++ ws2 ++ w3 ++ ws3 ++ ['k', 'i']
    match pySplitWs (String.mk matched) with
    | [p0, p1, p2, p3] =>
      if p1 = "lo" && p3 = "ki" then
        .ok (some ⟨.TELUGU_KEYWORD, .str ("for " ++ p2 ++ " in " ++ p0), st.lineno⟩,
             rest, st)
      else .error (pyLexError "Rule t_FOR_LOOP_PATTERN returned an unknown token type")
    | _ => .error (pyLexError "Rule t_FOR_LOOP_PATTERN returned an unknown token type")
  | none =>
  match matchConditional cs with
  | some (matched, rest) =>
    match conditionalActionExtract matched with
    | some cond =>
      .ok (some ⟨.TELUGU_KEYWORD, .str ("if " ++ cond), st.lineno⟩, rest, st)
    | none =>
      .error (pyLexError "Rule t_CONDITIONAL_PATTERN returned an unknown token type")
  | none =>
  match matchIdentifier cs with
  | some (word, rest) =>
    match SINGLE_WORD_KEYWORDS.lookup word with
    | some python =>
      -- keywords mapping to the empty string keep their surface spelling
      let value := if strIsEmpty python then word else python
      .ok (some ⟨.TELUGU_KEYWORD, .str value, st.lineno⟩, rest, st)
    | none => .ok (some ⟨.IDENTIFIER, .str word, st.lineno⟩, rest, st)
  | none =>
  match matchNewline cs with
  | some (run, rest) =>
    let st' := { st with lineno := st.lineno + run.length, atLineStart := true }
    -- only return newline tokens when not inside parentheses
    if st.parenCount = 0 then
      .ok (some ⟨.NEWLINE, .str (String.mk run), st.lineno⟩, rest, st')
    else .ok (none, rest, st')
  | none =>
  match matchStringRule cs with
  | some (tt, rest) =>
    .ok (some ⟨tt, .str (String.mk (cs.take (cs.length - rest.length))), st.lineno⟩,
         rest, st)
  | none =>
    -- t_error: report the illegal character (a print, not modelled) and skip it
    .ok (none, cs.drop 1, st)

/-- `TengLexer.track_parentheses`, applied to each emitted token by
`TengLexer.tokenize`. -/
def trackParentheses (t : Token) (st : LexState) : LexState :=
  if t.type = .LPAREN then { st with parenCount := st.parenCount + 1 }
  else if t.type = .RPAREN then { st with parenCount := st.parenCount - 1 }
  else st

/-- The `lex.token()` scanning loop plus `TengLexer.tokenize`'s collection
loop.  Every iteration consumes at least one character, so fuel
`cs.length + 1` never runs out. -/
def tokenizeAux (fuel : Nat) (cs : List Char) (st : LexState) :
    Except PyErr (List Token × LexState) :=
  match fuel with
  | 0 => match cs with
    | [] => .ok ([], st)
    | _ => .error fuelErr
  | fuel + 1 =>
    match cs with
    | [] => .ok ([], st)
    | c :: rest =>
      if c = ' ' || c = '\t' then
        -- t_ignore characters are skipped before any rule is tried
        tokenizeAux fuel rest st
      else
        match lexStep (c :: rest) st with
        | .error e => .error e
        | .ok (none, rest', st') => tokenizeAux fuel rest' st'
        | .ok (some tok, rest', st') =>
          match tokenizeAux fuel rest' (trackParentheses tok st') with
          | .error e => .error e
          | .ok (toks, stF) => .ok (tok :: toks, stF)

/-- `TengLexer.tokenize` on a freshly built lexer, also exposing the final
lexer state. -/
def tokenizeSt (text : String) : Except PyErr (List Token × LexState) :=
  tokenizeAux (text.length + 1) text.toList initLexState

/-- `TengLexer.tokenize`: the emitted token list. -/
def tokenize (text : String) : Except PyErr (List Token) :=
  (tokenizeSt text).map Prod.fst

/-! ### AST nodes (`src/ast_nodes.py`)

Python's constructors type-check some attributes with `isinstance` and
leave others unchecked.  Attributes that the parser can populate with
`None` through an unchecked constructor are modelled as `Option`:
argument/element lists (`ListLiteral.elements`, `FunctionCall.arguments`,
`MethodCall.arguments`, `PrintStatement.arguments` check only that the
container is a list), `ExpressionStatement.expression` (no check at all)
and `ReturnStatement.value` (optional by design).  Checked attributes are
plain `Expr`, with the `isinstance` failures modelled by the `mk...`
smart constructors further below. -/

/-- A Python number held by a `NumberLiteral`: an int, or a float stored
via the text `str(float)` would print (floats only arise in
`_parse_print_statement`'s argument splitter; the stored text is exact
for the short decimal literals that splitter can produce). -/
inductive PyNum
  | int (n : Int)
  | float (text : String)
deriving Repr, DecidableEq

def PyNum.str : PyNum → String
  | .int n => toString n
  | .float t => t

inductive Expr
  | identifier (name : String)
  | stringLit (value : String)
  | numberLit (value : PyNum)
  | booleanLit (value : Bool)
  | listLit (elements : List (Option Expr))
  | binaryOp (left : Expr) (operator : String) (right : Expr)
  | unaryOp (operator : String) (operand : Expr)
  | functionCall (name : String) (arguments : List (Option Expr))
  | methodCall (objectExpr : Expr) (methodName : String) (arguments : List (Option Expr))
  | attributeAccess (objectExpr : Expr) (attributeName : String)

mutual
inductive Stmt
  | assignment (var : String) (value : Expr)
  | printStmt (arguments : List (Option Expr))
  | ifStmt (condition : Expr) (thenBlock : List Stmt) (elseBlock : List Stmt)
      (elifBlocks : List ElifB)
  | forStmt (var : String) (iterable : Expr) (body : List Stmt)
  | whileStmt (condition : Expr) (body : List Stmt)
  | funcDef (name : String) (parameters : List String) (body : List Stmt)
  | returnStmt (value : Option Expr)
  | breakStmt
  | continueStmt
  | exprStmt (expression : Option Expr)

inductive ElifB
  | mk (condition : Expr) (body : List Stmt)
end

/-- `Program`: the tree root. -/
structure Program where
  statements : List Stmt

/-! ### Renderer (`ASTNode.to_python` methods) -/

/-- A single quote character, for building Python error and repr text. -/
def squote : String := String.singleton (Char.ofNat 39)

def quoted (s : String) : String := squote ++ s ++ squote

/-- The `AttributeError` Python raises when rendering reaches a `None`
stored where a node was expected. -/
def noneToPythonErr : PyErr :=
  pyAttributeError (quoted "NoneType" ++ " object has no attribute " ++ quoted "to_python")

/-- `ASTNode._indent`: `"    " * indent_level`. -/
def indentStr (n : Nat) : String := String.join (List.replicate n "    ")

/-- `StringLiteral.to_python`'s escaping:
`value.replace("\\", "\\\\").replace("\"", "\\\"")`. -/
def pyEscapeString (v : String) : String :=
  strReplace (strReplace v "\\" "\\\\") "\"" "\\\""

/-- `BinaryOperation._get_precedence`: the precedence dict with default 0. -/
def getPrecedence (op : String) : Nat :=
  if op = "or" then 1 else if op = "leda" then 1
  else if op = "and" then 2 else if op = "mariyu" then 2
  else if op = "not" then 3 else if op = "avvakapote" then 3
  else if op = "==" then 4 else if op = "!=" then 4
  else if op = "<" then 4 else if op = "<=" then 4
  else if op = ">" then 4 else if op = ">=" then 4
  else if op = "+" then 5 else if op = "-" then 5
  else if op = "*" then 6 else if op = "/" then 6 else if op = "%" then 6
  else 0

/-- `BinaryOperation._needs_parentheses` (the parent is `self`, so it is
identified by its operator; only the operators enter the decision). -/
def needsParentheses (parentOp childOp : String) (isLeft : Bool) : Bool :=
  let parentPrecedence := getPrecedence parentOp
  let childPrecedence := getPrecedence childOp
  if childPrecedence < parentPrecedence then true
  else if childPrecedence = parentPrecedence && !isLeft then true
  else false

mutual

/-- `to_python` for expression nodes.  Expression nodes ignore their
`indent_level` parameter (and all call sites pass none), so it is
omitted.  Rendering an expression can only fail by reaching a `None`
inside one of the unchecked argument lists. -/
def Expr.toPython : Expr → Except PyErr String
  | .identifier name => .ok name
  | .stringLit value => .ok ("\"" ++ pyEscapeString value ++ "\"")
  | .numberLit value => .ok value.str
  | .booleanLit value => .ok (if value then "True" else "False")
  | .listLit elements =>
    if elements.isEmpty then .ok "[]"
    else
      match renderArgs elements with
      | .error e => .error e
      | .ok strs => .ok ("[" ++ String.intercalate ", " strs ++ "]")
  | .binaryOp left operator right =>
    match Expr.toPython left with
    | .error e => .error e
    | .ok leftCode =>
      match Expr.toPython right with
      | .error e => .error e
      | .ok rightCode =>
        let leftCode :=
          match left with
          | .binaryOp _ leftOp _ =>
            if needsParentheses operator leftOp true then "(" ++ leftCode ++ ")"
            else leftCode
          | _ => leftCode
        let rightCode :=
          match right with
          | .binaryOp _ rightOp _ =>
            if needsParentheses operator rightOp false then "(" ++ rightCode ++ ")"
            else rightCode
          | _ => rightCode
        -- always use spaces around operators
        .ok (leftCode ++ " " ++ operator ++ " " ++ rightCode)
  | .unaryOp operator operand =>
    match Expr.toPython operand with
    | .error e => .error e
    | .ok operandCode =>
      let operandCode :=
        match operand with
        | .binaryOp _ _ _ => "(" ++ operandCode ++ ")"
        | _ => operandCode
      if operator = "-" || operator = "+" then .ok (operator ++ operandCode)
      else .ok (operator ++ " " ++ operandCode)
  | .functionCall name arguments =>
    if arguments.isEmpty then .ok (name ++ "()")
    else
      match renderArgs arguments with
      | .error e => .error e
      | .ok strs => .ok (name ++ "(" ++ String.intercalate ", " strs ++ ")")
  | .methodCall objectExpr methodName arguments =>
    match Expr.toPython objectExpr with
    | .error e => .error e
    | .ok objectCode =>
      match renderArgs arguments with
      | .error e => .error e
      | .ok strs =>
        .ok (objectCode ++ "." ++ methodName ++ "(" ++ String.intercalate ", " strs ++ ")")
  | .attributeAccess objectExpr attributeName =>
    match Expr.toPython objectExpr with
    | .error e => .error e
    | .ok objectCode => .ok (objectCode ++ "." ++ attributeName)
termination_by structural e => e

/-- Render each argument left to right (`arg.to_python()` inside a
comprehension); a `None` raises `AttributeError`. -/
def renderArgs : List (Option Expr) → Except PyErr (List String)
  | [] => .ok []
  | none :: _ => .error noneToPythonErr
  | some e :: rest =>
    match Expr.toPython e with
    | .error err => .error err
    | .ok s =>
      match renderArgs rest with
      | .error err => .error err
      | .ok strs => .ok (s :: strs)
termination_by structural es => es

end

mutual

/-- `to_python` for statement nodes. -/
def Stmt.toPython (stmt : Stmt) (indentLevel : Nat) : Except PyErr String :=
  match stmt with
  | .assignment var value =>
    match Expr.toPython value with
    | .error e => .error e
    | .ok valueCode => .ok (indentStr indentLevel ++ var ++ " = " ++ valueCode)
  | .printStmt arguments =>
    if arguments.isEmpty then .ok (indentStr indentLevel ++ "print()")
    else
      match renderArgs arguments with
      | .error e => .error e
      | .ok strs =>
        .ok (indentStr indentLevel ++ "print(" ++ String.intercalate ", " strs ++ ")")
  | .ifStmt condition thenBlock elseBlock elifBlocks =>
    match Expr.toPython condition with
    | .error e => .error e
    | .ok conditionCode =>
      let result := indentStr indentLevel ++ "if " ++ conditionCode ++ ":\n"
      if thenBlock.isEmpty then
        .error (pyValueError
          "If statement has empty then_block - this should be caught during parsing")
      else
        match renderBlockLines thenBlock (indentLevel + 1) with
        | .error e => .error e
        | .ok thenCode =>
          match renderElifLines elifBlocks indentLevel with
          | .error e => .error e
          | .ok elifCode =>
            if elseBlock.isEmpty then
              .ok (pyRstrip (result ++ thenCode ++ elifCode))
            else
              match renderBlockLines elseBlock (indentLevel + 1) with
              | .error e => .error e
              | .ok elseCode =>
                .ok (pyRstrip (result ++ thenCode ++ elifCode ++
                  indentStr indentLevel ++ "else:\n" ++ elseCode))
  | .forStmt var iterable body =>
    match Expr.toPython iterable with
    | .error e => .error e
    | .ok iterableCode =>
      let result := indentStr indentLevel ++ "for " ++ var ++ " in " ++
        iterableCode ++ ":\n"
      if body.isEmpty then
        .error (pyValueError
          "For loop has empty body - this should be caught during parsing")
      else
        match renderBlockLines body (indentLevel + 1) with
        | .error e => .error e
        | .ok bodyCode => .ok (pyRstrip (result ++ bodyCode))
  | .whileStmt condition body =>
    match Expr.toPython condition with
    | .error e => .error e
    | .ok conditionCode =>
      let result := indentStr indentLevel ++ "while " ++ conditionCode ++ ":\n"
      if body.isEmpty then
        .error (pyValueError
          "While loop has empty body - this should be caught during parsing")
      else
        match renderBlockLines body (indentLevel + 1) with
        | .error e => .error e
        | .ok bodyCode => .ok (pyRstrip (result ++ bodyCode))
  | .funcDef name parameters body =>
    let result := indentStr indentLevel ++ "def " ++ name ++ "(" ++
      String.intercalate ", " parameters ++ "):\n"
    if body.isEmpty then
      .error (pyValueError
        "Function has empty body - this should be caught during parsing")
    else
      match renderBlockLines body (indentLevel + 1) with
      | .error e => .error e
      | .ok bodyCode => .ok (pyRstrip (result ++ bodyCode))
  | .returnStmt value =>
    match value with
    | none => .ok (indentStr indentLevel ++ "return")
    | some v =>
      match Expr.toPython v with
      | .error e => .error e
      | .ok valueCode => .ok (indentStr indentLevel ++ "return " ++ valueCode)
  | .breakStmt => .ok (indentStr indentLevel ++ "break")
  | .continueStmt => .ok (indentStr indentLevel ++ "continue")
  | .exprStmt expression =>
    match expression with
    | none => .error noneToPythonErr
    | some e =>
      match Expr.toPython e with
      | .error err => .error err
      | .ok code => .ok (indentStr indentLevel ++ code)
termination_by structural stmt

/-- A block's contribution to its parent's text:
`stmt.to_python(indent_level + 1) + "\n"` for each statement, with the
caller passing the already incremented level. -/
def renderBlockLines (stmts : List Stmt) (indentLevel : Nat) : Except PyErr String :=
  match stmts with
  | [] => .ok ""
  | stmt :: rest =>
    match Stmt.toPython stmt indentLevel with
    | .error e => .error e
    | .ok code =>
      match renderBlockLines rest indentLevel with
      | .error e => .error e
      | .ok restCode => .ok (code ++ "\n" ++ restCode)
termination_by structural stmts

/-- `ElifBlock.to_python` (note: its empty-body `ValueError` message was
copy-pasted from the for-loop). -/
def ElifB.toPython (eb : ElifB) (indentLevel : Nat) : Except PyErr String :=
  match eb with
  | .mk condition body =>
    match Expr.toPython condition with
    | .error e => .error e
    | .ok conditionCode =>
      let result := indentStr indentLevel ++ "elif " ++ conditionCode ++ ":\n"
      if body.isEmpty then
        .error (pyValueError
          "For loop has empty body - this should be caught during parsing")
      else
        match renderBlockLines body (indentLevel + 1) with
        | .error e => .error e
        | .ok bodyCode => .ok (pyRstrip (result ++ bodyCode))
termination_by structural eb

/-- The elif clauses inside `IfStatement.to_python`:
`elif_block.to_python(indent_level) + "\n"` for each clause. -/
def renderElifLines (ebs : List ElifB) (indentLevel : Nat) : Except PyErr String :=
  match ebs with
  | [] => .ok ""
  | eb :: rest =>
    match ElifB.toPython eb indentLevel with
    | .error e => .error e
    | .ok code =>
      match renderElifLines rest indentLevel with
      | .error e => .error e
      | .ok restCode => .ok (code ++ "\n" ++ restCode)
termination_by structural ebs

end

/-- Statement kinds after which `Program.to_python` inserts a blank line. -/
def isBlockStatement : Stmt → Bool
  | .forStmt _ _ _ => true
  | .whileStmt _ _ => true
  | .ifStmt _ _ _ _ => true
  | .funcDef _ _ _ => true
  | _ => false

/-- The line-collecting loop of `Program.to_python`: keep nonblank
renders, and append one separator blank line after for/while/if/def
statements that are not last. -/
def programLines (stmts : List Stmt) (indentLevel : Nat) : Except PyErr (List String) :=
  match stmts with
  | [] => .ok []
  | stmt :: rest =>
    match Stmt.toPython stmt indentLevel with
    | .error e => .error e
    | .ok code =>
      match programLines rest indentLevel with
      | .error e => .error e
      | .ok restLines =>
        if strIsEmpty (pyStrip code) then .ok restLines
        else if !rest.isEmpty && isBlockStatement stmt then
          .ok (code :: "" :: restLines)
        else .ok (code :: restLines)

/-- `Program.to_python`. -/
def Program.toPython (p : Program) (indentLevel : Nat := 0) : Except PyErr String :=
  if p.statements.isEmpty then .ok ""
  else
    match programLines p.statements indentLevel with
    | .error e => .error e
    | .ok lines => .ok (String.intercalate "\n" lines)

/-! ### Constructor checks

Each `mk...` helper mirrors the `isinstance` checks a Python node
constructor performs, in source order, on arguments the parser supplies
as possibly-`None` parse results or raw token values. -/

def mkBinaryOperation (left : Option Expr) (operator : String) (right : Option Expr) :
    Except PyErr Expr :=
  match left with
  | none => .error (pyTypeError "left operand must be an Expression")
  | some l =>
    match right with
    | none => .error (pyTypeError "right operand must be an Expression")
    | some r => .ok (.binaryOp l operator r)

/-- `BinaryOperation(expr, op_token.value, right)`: the operator check
fires when the token value is an int. -/
def mkBinaryOperationTok (left : Option Expr) (operator : TokValue) (right : Option Expr) :
    Except PyErr Expr :=
  match left with
  | none => .error (pyTypeError "left operand must be an Expression")
  | some l =>
    match right with
    | none => .error (pyTypeError "right operand must be an Expression")
    | some r =>
      match operator with
      | .str op => .ok (.binaryOp l op r)
      | .num _ => .error (pyTypeError "operator must be a string")

def mkUnaryOperation (operator : String) (operand : Option Expr) : Except PyErr Expr :=
  match operand with
  | none => .error (pyTypeError "operand must be an Expression")
  | some e => .ok (.unaryOp operator e)

def mkUnaryOperationTok (operator : TokValue) (operand : Option Expr) :
    Except PyErr Expr :=
  match operand with
  | none => .error (pyTypeError "operand must be an Expression")
  | some e =>
    match operator with
    | .str op => .ok (.unaryOp op e)
    | .num _ => .error (pyTypeError "operator must be a string")

/-- `AssignmentStatement(var_token.value, value)`. -/
def mkAssignment (var : TokValue) (value : Option Expr) : Except PyErr Stmt :=
  match var with
  | .num _ => .error (pyTypeError "variable must be a string")
  | .str v =>
    match value with
    | none => .error (pyTypeError "value must be an Expression")
    | some e => .ok (.assignment v e)

/-- `IfStatement(condition, then_block, else_block, elif_blocks)`. -/
def mkIfStatement (condition : Option Expr) (thenBlock elseBlock : List Stmt)
    (elifBlocks : List ElifB) : Except PyErr Stmt :=
  match condition with
  | none => .error (pyTypeError "condition must be an Expression")
  | some c => .ok (.ifStmt c thenBlock elseBlock elifBlocks)

/-- `ForStatement(variable, iterable, body)`. -/
def mkForStatement (var : TokValue) (iterable : Option Expr) (body : List Stmt) :
    Except PyErr Stmt :=
  match var with
  | .num _ => .error (pyTypeError "variable must be a string")
  | .str v =>
    match iterable with
    | none => .error (pyTypeError "iterable must be an Expression")
    | some it => .ok (.forStmt v it body)

def mkWhileStatement (condition : Option Expr) (body : List Stmt) : Except PyErr Stmt :=
  match condition with
  | none => .error (pyTypeError "condition must be an Expression")
  | some c => .ok (.whileStmt c body)

/-- `FunctionDefinition(name_token.value, parameters, body)`. -/
def mkFunctionDefinition (name : TokValue) (parameters : List String)
    (body : List Stmt) : Except PyErr Stmt :=
  match name with
  | .num _ => .error (pyTypeError "name must be a string")
  | .str n => .ok (.funcDef n parameters body)

def mkElifBlock (condition : Option Expr) (body : List Stmt) : Except PyErr ElifB :=
  match condition with
  | none => .error (pyTypeError "condition must be an Expression")
  | some c => .ok (.mk c body)

/-- `NumberLiteral(current.value)` in `_parse_primary`. -/
def mkNumberLiteral (value : TokValue) : Except PyErr Expr :=
  match value with
  | .num n => .ok (.numberLit (.int n))
  | .str _ => .error (pyTypeError "value must be a number")

/-- `StringLiteral(current.value)` in `_parse_primary`. -/
def mkStringLiteral (value : TokValue) : Except PyErr Expr :=
  match value with
  | .str s => .ok (.stringLit s)
  | .num _ => .error (pyTypeError "value must be a string")

/-- `Identifier(current.value)` in `_parse_primary`. -/
def mkIdentifier (value : TokValue) : Except PyErr Expr :=
  match value with
  | .str s => .ok (.identifier s)
  | .num _ => .error (pyTypeError "name must be a string")

/-! ### Python `repr` of AST nodes

Needed only for the `str(expr)` fallback in `_parse_primary`'s postfix
loop (calling a non-identifier callee).  `ASTNode.__repr__` formats the
`__dict__` in attribute order; `MethodCall` and `AttributeAccess` define
their own `__repr__`. -/

/-- Python `repr` of a string (printable-ASCII scope: the usual escapes,
single quotes unless the string holds a single quote and no double
quote). -/
def pyReprStr (s : String) : String :=
  let useDouble := s.toList.contains (Char.ofNat 39) && !s.toList.contains '"'
  let q := if useDouble then "\"" else squote
  let esc := s.toList.foldr (fun c acc =>
    (if c = '\\' then "\\\\"
     else if c = '\n' then "\\n"
     else if c = '\t' then "\\t"
     else if c = '\r' then "\\r"
     else if String.singleton c = q then "\\" ++ q
     else String.singleton c) ++ acc) ""
  q ++ esc ++ q

mutual

def pyReprExpr : Expr → String
  | .identifier name => "Identifier(name=" ++ pyReprStr name ++ ")"
  | .stringLit v => "StringLiteral(value=" ++ pyReprStr v ++ ")"
  | .numberLit v => "NumberLiteral(value=" ++ v.str ++ ")"
  | .booleanLit b => "BooleanLiteral(value=" ++ (if b then "True" else "False") ++ ")"
  | .listLit es => "ListLiteral(elements=[" ++ pyReprArgsJoined es ++ "])"
  | .binaryOp l op r =>
    "BinaryOperation(left=" ++ pyReprExpr l ++ ", operator=" ++ pyReprStr op ++
      ", right=" ++ pyReprExpr r ++ ")"
  | .unaryOp op e =>
    "UnaryOperation(operator=" ++ pyReprStr op ++ ", operand=" ++ pyReprExpr e ++ ")"
  | .functionCall n args =>
    "FunctionCall(name=" ++ pyReprStr n ++ ", arguments=[" ++ pyReprArgsJoined args ++ "])"
  | .methodCall o m args =>
    "MethodCall(object=" ++ pyReprExpr o ++ ", method=" ++ m ++
      ", args=[" ++ pyReprArgsJoined args ++ "])"
  | .attributeAccess o a =>
    "AttributeAccess(object=" ++ pyReprExpr o ++ ", attribute=" ++ a ++ ")"
termination_by structural e => e

def pyReprOpt : Option Expr → String
  | none => "None"
  | some e => pyReprExpr e
termination_by structural o => o

def pyReprArgsJoined : List (Option Expr) → String
  | [] => ""
  | [a] => pyReprOpt a
  | a :: rest => pyReprOpt a ++ ", " ++ pyReprArgsJoined rest
termination_by structural l => l

end

/-! ### Token stream (`parser.TokenStream`) -/

structure TokenStream where
  tokens : List Token
  pos : Nat
deriving Repr, DecidableEq

/-- `TokenStream.peek(offset)`. -/
def TokenStream.peek (s : TokenStream) (offset : Nat := 0) : Option Token :=
  s.tokens.get? (s.pos + offset)

/-- `TokenStream.consume()`: the cursor does not move past the end. -/
def TokenStream.consume (s : TokenStream) : Option Token × TokenStream :=
  match s.tokens.get? s.pos with
  | some t => (some t, { s with pos := s.pos + 1 })
  | none => (none, s)

def TokenStream.advance (s : TokenStream) : TokenStream := s.consume.2

/-- `TokenStream.match(*token_types)`. -/
def TokenStream.matchTok (s : TokenStream) (types : List TokType) : Bool :=
  match s.peek with
  | some t => types.contains t.type
  | none => false

/-- `TokenStream.expect(token_type)` (consume, then verify). -/
def TokenStream.expect (s : TokenStream) (tt : TokType) :
    Except PyErr (Token × TokenStream) :=
  match s.consume with
  | (some t, s2) =>
    if t.type = tt then .ok (t, s2)
    else .error (pySyntaxError ("Expected " ++ tt.name ++ ", got " ++ t.type.name))
  | (none, _) => .error (pySyntaxError ("Expected " ++ tt.name ++ ", got EOF"))

def TokenStream.atEnd (s : TokenStream) : Bool := s.tokens.length ≤ s.pos

/-- Python `"\n\n" in newline_token.value` (newline tokens always carry
strings; an int value would raise `TypeError` in Python). -/
def Token.hasDoubleNewline (t : Token) : Bool :=
  match t.value with
  | .str s => strHasInfix "\n\n" s
  | .num _ => false

/-! ### Lookahead predicates (`TengParser._is_*`)

Each scans `stream.peek(pos)` for increasing `pos` without consuming;
they are embedded as recursions over the remaining token list. -/

/-- Scan loop of `_is_telugu_return_statement`, starting at offset 1.
Note: `depth` is tracked but never consulted, exactly as in the source —
a `return` keyword inside parentheses still yields `True`. -/
def returnScan : List Token → Int → Bool
  | [], _ => false
  | t :: rest, depth =>
    if t.type = .NEWLINE then false
    else if t.type = .LPAREN then returnScan rest (depth + 1)
    else if t.type = .RPAREN then returnScan rest (depth - 1)
    else if t.type = .TELUGU_KEYWORD && t.eqStr "return" then true
    else returnScan rest depth

def isTeluguReturnStatement (s : TokenStream) : Bool :=
  returnScan (s.tokens.drop (s.pos + 1)) 0

/-- Scan loop of `_is_telugu_postfix_print` (after the leading-`LPAREN`
check): find the close paren restoring depth 0 and require the next token
to be the `print` keyword. -/
def printScan : List Token → Int → Bool
  | [], _ => false
  | t :: rest, depth =>
    if t.type = .LPAREN then printScan rest (depth + 1)
    else if t.type = .RPAREN then
      if depth - 1 = 0 then
        match rest with
        | next :: _ => next.type = .TELUGU_KEYWORD && next.eqStr "print"
        | [] => false
      else printScan rest (depth - 1)
    else printScan rest depth

def isTeluguPostfixPrint (s : TokenStream) : Bool :=
  match s.peek with
  | some t => if t.type = .LPAREN then printScan (s.tokens.drop s.pos) 0 else false
  | none => false

/-- Scan loop of `_is_telugu_for_loop`: at a depth-0 `in` keyword, require
`IDENTIFIER TELUGU_KEYWORD COLON` to follow (else stop scanning). -/
def forLoopScan : List Token → Int → Bool
  | [], _ => false
  | t :: rest, depth =>
    if t.type = .LPAREN then forLoopScan rest (depth + 1)
    else if t.type = .RPAREN then forLoopScan rest (depth - 1)
    else if depth = 0 && t.type = .TELUGU_KEYWORD && t.eqStr "in" then
      match rest with
      | var :: ki :: colon :: _ =>
        var.type = .IDENTIFIER && ki.type = .TELUGU_KEYWORD && colon.type = .COLON
      | _ => false
    else forLoopScan rest depth

def isTeluguForLoop (s : TokenStream) : Bool :=
  forLoopScan (s.tokens.drop s.pos) 0

/-- Scan loop of `_is_telugu_while_loop`: a `while` keyword immediately
followed by a colon, within the current logical line; the loop needs two
tokens in range. -/
def whileScan : List Token → Bool
  | t1 :: t2 :: rest =>
    if t1.type = .NEWLINE then false
    else if t1.type = .TELUGU_KEYWORD && t1.eqStr "while" && t2.type = .COLON then true
    else whileScan (t2 :: rest)
  | _ => false

def isTeluguWhileLoop (s : TokenStream) : Bool :=
  whileScan (s.tokens.drop s.pos)

/-- Scan loop of `_is_incomplete_for_loop`. -/
def incompleteForScan : List Token → Int → Bool
  | [], _ => false
  | t :: rest, depth =>
    if t.type = .LPAREN then incompleteForScan rest (depth + 1)
    else if t.type = .RPAREN then incompleteForScan rest (depth - 1)
    else if depth = 0 && t.type = .TELUGU_KEYWORD && t.eqStr "in" then
      match rest with
      | var :: restV =>
        if var.type = .IDENTIFIER then
          match restV with
          | ki :: restK =>
            if ki.type ≠ .TELUGU_KEYWORD then true
            else
              match restK with
              | colon :: _ => colon.type ≠ .COLON
              | [] => true
          | [] => true
        else false
      | [] => false
    else incompleteForScan rest depth

def isIncompleteForLoop (s : TokenStream) : Bool :=
  incompleteForScan (s.tokens.drop s.pos) 0

/-! ### Block-parsing helpers -/

/-- Loop body of `_calculate_line_indent` (and `_get_line_indent`). -/
def calcIndentAux : List Char → Nat
  | ' ' :: r => 1 + calcIndentAux r
  | '\t' :: r => 8 + calcIndentAux r
  | _ => 0

def calcLineIndent (line : String) : Nat := calcIndentAux line.toList

/-- The newline search of `_get_current_indentation_level`: the token just
before the first `NEWLINE` in the remaining stream (`None` when the
newline is first or there is no newline). -/
def findParentBeforeNewline : Option Token → List Token → Option Token
  | _, [] => none
  | prev, t :: rest =>
    if t.type = .NEWLINE then prev else findParentBeforeNewline (some t) rest

/-- `TengParser._get_current_indentation_level` (`source_lines` is always
set by `parse`; every token carries `lineno`).  Tokens produced by the
lexer have `lineno ≥ 1`; `Nat` subtraction stands in for Python's
`lineno - 1`. -/
def getCurrentIndentationLevel (ctx : List String) (s : TokenStream) : Nat :=
  let parent :=
    match findParentBeforeNewline none (s.tokens.drop s.pos) with
    | some t => some t
    | none => s.peek
  match parent with
  | none => 0
  | some t =>
    match ctx.get? (t.lineno - 1) with
    | some line => calcLineIndent line
    | none => 0

/-- The `while stream.match("NEWLINE"): stream.consume()` preamble of
`_parse_indented_block`. -/
def countLeadingNewlines : List Token → Nat
  | t :: r => if t.type = .NEWLINE then countLeadingNewlines r + 1 else 0
  | [] => 0

def skipNewlines (s : TokenStream) : TokenStream :=
  { s with pos := s.pos + countLeadingNewlines (s.tokens.drop s.pos) }

/-- The collection loop of `_parse_expression_until_while`: how many
tokens precede the first `while` keyword (consuming to the end when there
is none). -/
def untilWhileCount : List Token → Nat
  | [] => 0
  | t :: rest =>
    if t.type = .TELUGU_KEYWORD && t.eqStr "while" then 0 else untilWhileCount rest + 1

/-! ### Print-argument splitting (`_parse_print_statement` internals) -/

/-- `TengParser._split_arguments`: split on commas outside double quotes;
a quote not preceded by a backslash toggles the in-quotes flag (quotes
and all other characters are kept in the current piece; pieces are
stripped and dropped when blank). -/
def splitArgsLoop : List Char → List Char → Bool → List String → List String
  | [], current, _, parts =>
    if strIsEmpty (pyStrip (String.mk current.reverse)) then parts
    else parts ++ [pyStrip (String.mk current.reverse)]
  | c :: rest, current, inQuotes, parts =>
    if c = '"' && (current.isEmpty || current.head? ≠ some '\\') then
      splitArgsLoop rest (c :: current) (!inQuotes) parts
    else if c = ',' && !inQuotes then
      let parts :=
        if strIsEmpty (pyStrip (String.mk current.reverse)) then parts
        else parts ++ [pyStrip (String.mk current.reverse)]
      splitArgsLoop rest [] inQuotes parts
    else splitArgsLoop rest (c :: current) inQuotes parts

def splitArguments (argsStr : String) : List String :=
  splitArgsLoop argsStr.toList [] false []

/-- `str(float(part))` for the digit/dot strings the print-argument
splitter can classify as floats (exact for short decimal literals, the
only ones those postfix-print token texts contain). -/
def normalizeFloatText (s : String) : String :=
  let intPart := s.toList.takeWhile (· ≠ '.')
  let fracPart := (s.toList.dropWhile (· ≠ '.')).drop 1
  let intTrimmed := intPart.dropWhile (· = '0')
  let intS := if intTrimmed.isEmpty then "0" else String.mk intTrimmed
  let fracTrimmed := (fracPart.reverse.dropWhile (· = '0')).reverse
  let fracS := if fracTrimmed.isEmpty then "0" else String.mk fracTrimmed
  intS ++ "." ++ fracS

/-- Python `float(part)` for a digits-and-dots string: more than one dot
raises `ValueError`. -/
def pyFloatOfString (s : String) : Except PyErr PyNum :=
  if (s.toList.filter (· = '.')).length = 1 then .ok (.float (normalizeFloatText s))
  else .error (pyValueError ("could not convert string to float: " ++ quoted s))

/-- The per-part conversion in `_parse_print_statement`: quoted → string
literal, digits → int literal, digits-and-dots → float literal, anything
else → identifier. -/
def convertPrintArg (raw : String) : Except PyErr (Option Expr) :=
  let part := pyStrip raw
  if strStartsWith part "\"" && strEndsWith part "\"" then
    .ok (some (.stringLit (strDropRight (strDrop part 1) 1)))
  else if pyIsDigit part then .ok (some (.numberLit (.int (digitsToInt part.toList))))
  else if pyIsDigit (strReplace part "." "") then
    match pyFloatOfString part with
    | .error e => .error e
    | .ok n => .ok (some (.numberLit n))
  else .ok (some (.identifier part))

def convertPrintArgs : List String → Except PyErr (List (Option Expr))
  | [] => .ok []
  | p :: rest =>
    match convertPrintArg p with
    | .error e => .error e
    | .ok arg =>
      match convertPrintArgs rest with
      | .error e => .error e
      | .ok args => .ok (arg :: args)

/-! ### The recursive-descent parser (`TengParser`) -/

/-- The construct-specific empty-body messages share this shape. -/
def emptyBodyMsg (construct : String) : String :=
  construct ++ " cannot have empty body. Expected indented statements after " ++
    quoted ":" ++ "."

/-- Python `f"Expected ',' or '<close>' in <context>"`. -/
def expectedSepMsg (close ctxName : String) : String :=
  "Expected " ++ quoted "," ++ " or " ++ quoted close ++ " in " ++ ctxName

/-- Wrap a statement-producing parse result as the optional result
`_parse_statement` returns. -/
def mapSomeStmt (r : Except PyErr (Stmt × TokenStream)) :
    Except PyErr (Option Stmt × TokenStream) :=
  match r with
  | .error e => .error e
  | .ok (s, st) => .ok (some s, st)

/-- The inline `aite`/`avvakapote` handling in `_parse_if_statement`. -/
def handleIfConditionalToken (condition : Option Expr) (st : TokenStream) :
    Except PyErr (Option Expr × TokenStream) :=
  match st.peek with
  | some t =>
    if t.type = .TELUGU_KEYWORD then
      if t.eqStr "" then .ok (condition, st.advance)
      else if t.eqStr "not" then
        match mkUnaryOperation "not" condition with
        | .error e => .error e
        | .ok c => .ok (some c, st.advance)
      else .ok (condition, st)
    else .ok (condition, st)
  | none => .ok (condition, st)

mutual

/-- `TengParser._parse_program`'s statement loop. -/
def parseProgramLoop (fuel : Nat) (ctx : List String) (acc : List Stmt)
    (st : TokenStream) : Except PyErr (List Stmt × TokenStream) :=
  match fuel with
  | 0 => .error fuelErr
  | fuel + 1 =>
    if st.atEnd then .ok (acc, st)
    else
      match st.peek with
      | none => .ok (acc, st)
      | some t =>
        if t.type = .NEWLINE then parseProgramLoop fuel ctx acc st.advance
        else
          match parseStatement fuel ctx st with
          | .error e => .error e
          | .ok (some s, st2) => parseProgramLoop fuel ctx (acc ++ [s]) st2
          | .ok (none, st2) => parseProgramLoop fuel ctx acc st2
termination_by structural fuel

/-- `TengParser._parse_statement`: the ordered dispatch. -/
def parseStatement (fuel : Nat) (ctx : List String) (st : TokenStream) :
    Except PyErr (Option Stmt × TokenStream) :=
  match fuel with
  | 0 => .error fuelErr
  | fuel + 1 =>
    match st.peek with
    | none => .ok (none, st)
    | some current =>
      if current.type = .TELUGU_KEYWORD then parseTeluguStatement fuel ctx st
      else if current.type = .CHEPPU then mapSomeStmt (parsePrintStatement fuel ctx st)
      else if isTeluguReturnStatement st then
        mapSomeStmt (parseTeluguReturnStatement fuel ctx st)
      else if isTeluguPostfixPrint st then
        mapSomeStmt (parseTeluguPostfixPrint fuel ctx st)
      else if isTeluguForLoop st then mapSomeStmt (parseTeluguForLoop fuel ctx st)
      else if isTeluguWhileLoop st then mapSomeStmt (parseTeluguWhileLoop fuel ctx st)
      else if current.type = .IDENTIFIER then
        match st.peek 1 with
        | some next =>
          if next.type = .ASSIGN then mapSomeStmt (parseAssignment fuel ctx st)
          else if next.type = .TELUGU_KEYWORD && next.eqStr "return" then
            mapSomeStmt (parseTeluguReturnStatement fuel ctx st)
          else if isIncompleteForLoop st then
            .error (pySyntaxError ("Incomplete for loop: missing " ++ quoted "ki" ++
              " or " ++ quoted ":"))
          else mapSomeStmt (parseExpressionStatement fuel ctx st)
        | none =>
          if isIncompleteForLoop st then
            .error (pySyntaxError ("Incomplete for loop: missing " ++ quoted "ki" ++
              " or " ++ quoted ":"))
          else mapSomeStmt (parseExpressionStatement fuel ctx st)
      else mapSomeStmt (parseExpressionStatement fuel ctx st)
termination_by structural fuel

/-- `TengParser._parse_telugu_statement` (consumes the keyword, then
dispatches on its resolved value; unknown values yield `None`). -/
def parseTeluguStatement (fuel : Nat) (ctx : List String) (st : TokenStream) :
    Except PyErr (Option Stmt × TokenStream) :=
  match fuel with
  | 0 => .error fuelErr
  | fuel + 1 =>
    match st.consume with
    | (none, _) =>
      .error (pyAttributeError
        (quoted "NoneType" ++ " object has no attribute " ++ quoted "value"))
    | (some kw, st) =>
      match kw.value with
      | .num _ =>
        .error (pyAttributeError
          (quoted "int" ++ " object has no attribute " ++ quoted "startswith"))
      | .str keywordValue =>
        if keywordValue = "if" then mapSomeStmt (parseIfStatement fuel ctx st)
        else if keywordValue = "def" then
          mapSomeStmt (parseFunctionDefinition fuel ctx st)
        else if keywordValue = "return" then
          mapSomeStmt (parseReturnStatement fuel ctx st)
        else if keywordValue = "break" then .ok (some .breakStmt, st)
        else if keywordValue = "continue" then .ok (some .continueStmt, st)
        else if strStartsWith keywordValue "for " then
          mapSomeStmt (parsePreprocessedForLoop fuel ctx keywordValue st)
        else .ok (none, st)
termination_by structural fuel

/-- `TengParser._parse_print_statement`: decode the packed `CHEPPU` token
produced by `t_PRINT_POSTFIX`. -/
def parsePrintStatement (fuel : Nat) (_ctx : List String) (st : TokenStream) :
    Except PyErr (Stmt × TokenStream) :=
  match fuel with
  | 0 => .error fuelErr
  | _ + 1 =>
    match st.expect .CHEPPU with
    | .error e => .error e
    | .ok (cheppuTok, st) =>
      match cheppuTok.value with
      | .num _ =>
        .error (pyAttributeError
          (quoted "int" ++ " object has no attribute " ++ quoted "startswith"))
      | .str printCall =>
        if strStartsWith printCall "print(" && strEndsWith printCall ")" then
          let argsStr := strDropRight (strDrop printCall 6) 1
          if strIsEmpty (pyStrip argsStr) then .ok (.printStmt [], st)
          else
            match convertPrintArgs (splitArguments argsStr) with
            | .error e => .error e
            | .ok args => .ok (.printStmt args, st)
        else .ok (.printStmt [], st)

/-- `TengParser._parse_telugu_for_loop`: `iterable lo var ki:`. -/
def parseTeluguForLoop (fuel : Nat) (ctx : List String) (st : TokenStream) :
    Except PyErr (Stmt × TokenStream) :=
  match fuel with
  | 0 => .error fuelErr
  | fuel + 1 =>
    match parseExpression fuel ctx st with
    | .error e => .error e
    | .ok (iterable, st) =>
      match st.expect .TELUGU_KEYWORD with
      | .error e => .error e
      | .ok (loTok, st) =>
        if !(loTok.eqStr "in") then
          .error (pySyntaxError ("Expected " ++ quoted "lo" ++ " keyword, got " ++
            quoted loTok.value.text))
        else
          match st.expect .IDENTIFIER with
          | .error e => .error e
          | .ok (varTok, st) =>
            match st.expect .TELUGU_KEYWORD with
            | .error e => .error e
            | .ok (_, st) =>
              match st.expect .COLON with
              | .error e => .error e
              | .ok (_, st) =>
                match parseBlock fuel ctx st with
                | .error e => .error e
                | .ok (body, st) =>
                  if body.isEmpty then
                    .error (pySyntaxError (emptyBodyMsg "For loop"))
                  else
                    match mkForStatement varTok.value iterable body with
                    | .error e => .error e
                    | .ok stmt => .ok (stmt, st)
termination_by structural fuel

/-- `TengParser._parse_telugu_while_loop`: `condition unnanta varaku:`. -/
def parseTeluguWhileLoop (fuel : Nat) (ctx : List String) (st : TokenStream) :
    Except PyErr (Stmt × TokenStream) :=
  match fuel with
  | 0 => .error fuelErr
  | fuel + 1 =>
    match parseExpressionUntilWhile fuel ctx st with
    | .error e => .error e
    | .ok (condition, st) =>
      match st.expect .TELUGU_KEYWORD with
      | .error e => .error e
      | .ok (whileTok, st) =>
        if !(whileTok.eqStr "while") then
          .error (pySyntaxError ("Expected " ++ quoted "while" ++ " keyword, got " ++
            quoted whileTok.value.text))
        else
          match st.expect .COLON with
          | .error e => .error e
          | .ok (_, st) =>
            match parseBlock fuel ctx st with
            | .error e => .error e
            | .ok (body, st) =>
              if body.isEmpty then
                .error (pySyntaxError (emptyBodyMsg "While loop"))
              else
                match mkWhileStatement condition body with
                | .error e => .error e
                | .ok stmt => .ok (stmt, st)
termination_by structural fuel

/-- `TengParser._parse_preprocessed_for_loop`: unpack the lexer-packed
`"for var in iterable"` keyword value.  Note: unlike its siblings, this
path performs no empty-body check before building the `ForStatement`. -/
def parsePreprocessedForLoop (fuel : Nat) (ctx : List String) (forStatement : String)
    (st : TokenStream) : Except PyErr (Stmt × TokenStream) :=
  match fuel with
  | 0 => .error fuelErr
  | fuel + 1 =>
    match pySplitWs forStatement with
    | [p0, p1, p2, p3] =>
      if p0 = "for" && p2 = "in" then
        match st.expect .COLON with
        | .error e => .error e
        | .ok (_, st) =>
          match parseBlock fuel ctx st with
          | .error e => .error e
          | .ok (body, st) => .ok (.forStmt p1 (.identifier p3) body, st)
      else .error (pySyntaxError ("Invalid for loop format: " ++ forStatement))
    | _ => .error (pySyntaxError ("Invalid for loop format: " ++ forStatement))
termination_by structural fuel

/-- `TengParser._parse_telugu_postfix_print`: `(args)cheppu` parsed from
separate tokens (used when `t_PRINT_POSTFIX` did not pack the call). -/
def parseTeluguPostfixPrint (fuel : Nat) (ctx : List String) (st : TokenStream) :
    Except PyErr (Stmt × TokenStream) :=
  match fuel with
  | 0 => .error fuelErr
  | fuel + 1 =>
    match st.expect .LPAREN with
    | .error e => .error e
    | .ok (_, st) =>
      match parseArgsLoop fuel ctx .RPAREN (expectedSepMsg ")" "print statement") [] st with
      | .error e => .error e
      | .ok (args, st) =>
        match st.expect .RPAREN with
        | .error e => .error e
        | .ok (_, st) =>
          match st.expect .TELUGU_KEYWORD with
          | .error e => .error e
          | .ok (cheppuTok, st) =>
            if !(cheppuTok.eqStr "print") then
              .error (pySyntaxError ("Expected " ++ quoted "cheppu" ++
                " (print), got " ++ quoted cheppuTok.value.text))
            else .ok (.printStmt args, st)

/-- `TengParser._parse_expression_until_while`: collect the condition
tokens preceding the `while` keyword and parse them in a fresh stream. -/
def parseExpressionUntilWhile (fuel : Nat) (ctx : List String) (st : TokenStream) :
    Except PyErr (Option Expr × TokenStream) :=
  match fuel with
  | 0 => .error fuelErr
  | fuel + 1 =>
    let cnt := untilWhileCount (st.tokens.drop st.pos)
    let collected := (st.tokens.drop st.pos).take cnt
    let st2 : TokenStream := { st with pos := st.pos + cnt }
    if collected.isEmpty then .error (pySyntaxError "Missing condition in while loop")
    else
      match parseExpression fuel ctx ⟨collected, 0⟩ with
      | .error e => .error e
      | .ok (cond, _) => .ok (cond, st2)

/-- `TengParser._parse_assignment`: `var = expr`. -/
def parseAssignment (fuel : Nat) (ctx : List String) (st : TokenStream) :
    Except PyErr (Stmt × TokenStream) :=
  match fuel with
  | 0 => .error fuelErr
  | fuel + 1 =>
    match st.expect .IDENTIFIER with
    | .error e => .error e
    | .ok (varTok, st) =>
      match st.expect .ASSIGN with
      | .error e => .error e
      | .ok (_, st) =>
        match parseExpression fuel ctx st with
        | .error e => .error e
        | .ok (value, st) =>
          match mkAssignment varTok.value value with
          | .error e => .error e
          | .ok stmt => .ok (stmt, st)

/-- `TengParser._parse_if_statement` (the `if` keyword is consumed). -/
def parseIfStatement (fuel : Nat) (ctx : List String) (st : TokenStream) :
    Except PyErr (Stmt × TokenStream) :=
  match fuel with
  | 0 => .error fuelErr
  | fuel + 1 =>
    match parseExpression fuel ctx st with
    | .error e => .error e
    | .ok (condition, st) =>
      match handleIfConditionalToken condition st with
      | .error e => .error e
      | .ok (condition, st) =>
        match st.expect .COLON with
        | .error e => .error e
        | .ok (_, st) =>
          match parseBlock fuel ctx st with
          | .error e => .error e
          | .ok (thenBlock, st) =>
            if thenBlock.isEmpty then
              .error (pySyntaxError (emptyBodyMsg "If statement"))
            else
              match parseIfTrailer fuel ctx [] st with
              | .error e => .error e
              | .ok ((elifBlocks, elseBlock), st) =>
                match mkIfStatement condition thenBlock elseBlock elifBlocks with
                | .error e => .error e
                | .ok stmt => .ok (stmt, st)
termination_by structural fuel

/-- The elif/else loop at the end of `_parse_if_statement`. -/
def parseIfTrailer (fuel : Nat) (ctx : List String) (elifBlocks : List ElifB)
    (st : TokenStream) :
    Except PyErr ((List ElifB × List Stmt) × TokenStream) :=
  match fuel with
  | 0 => .error fuelErr
  | fuel + 1 =>
    match st.peek with
    | some t =>
      if t.type = .TELUGU_KEYWORD then
        if t.eqStr "elif" then
          let st := st.advance
          match parseExpression fuel ctx st with
          | .error e => .error e
          | .ok (elifCondition, st) =>
            -- skip aite
            let st : TokenStream :=
              match st.peek with
              | some a =>
                if a.type = .TELUGU_KEYWORD && a.eqStr "" then st.advance else st
              | none => st
            match st.expect .COLON with
            | .error e => .error e
            | .ok (_, st) =>
              match parseBlock fuel ctx st with
              | .error e => .error e
              | .ok (elifBody, st) =>
                -- note: no emptiness check on the elif body
                match mkElifBlock elifCondition elifBody with
                | .error e => .error e
                | .ok eb => parseIfTrailer fuel ctx (elifBlocks ++ [eb]) st
        else if t.eqStr "else" then
          let st := st.advance
          match st.expect .COLON with
          | .error e => .error e
          | .ok (_, st) =>
            match parseBlock fuel ctx st with
            | .error e => .error e
            | .ok (elseBlock, st) => .ok ((elifBlocks, elseBlock), st)
        else .ok ((elifBlocks, []), st)
      else .ok ((elifBlocks, []), st)
    | none => .ok ((elifBlocks, []), st)
termination_by structural fuel

/-- `TengParser._parse_function_definition`: `vidhanam name(params):`. -/
def parseFunctionDefinition (fuel : Nat) (ctx : List String) (st : TokenStream) :
    Except PyErr (Stmt × TokenStream) :=
  match fuel with
  | 0 => .error fuelErr
  | fuel + 1 =>
    match st.expect .IDENTIFIER with
    | .error e => .error e
    | .ok (nameTok, st) =>
      match st.expect .LPAREN with
      | .error e => .error e
      | .ok (_, st) =>
        match parseParamsLoop fuel ctx [] st with
        | .error e => .error e
        | .ok (parameters, st) =>
          match st.expect .RPAREN with
          | .error e => .error e
          | .ok (_, st) =>
            match st.expect .COLON with
            | .error e => .error e
            | .ok (_, st) =>
              match parseBlock fuel ctx st with
              | .error e => .error e
              | .ok (body, st) =>
                if body.isEmpty then
                  .error (pySyntaxError (emptyBodyMsg "Function"))
                else
                  match mkFunctionDefinition nameTok.value parameters body with
                  | .error e => .error e
                  | .ok stmt => .ok (stmt, st)
termination_by structural fuel

/-- The parameter-collecting loop of `_parse_function_definition`
(`IDENTIFIER` token values are strings; `TokValue.text` covers the
unreachable int case). -/
def parseParamsLoop (fuel : Nat) (ctx : List String) (parameters : List String)
    (st : TokenStream) : Except PyErr (List String × TokenStream) :=
  match fuel with
  | 0 => .error fuelErr
  | fuel + 1 =>
    if st.matchTok [.RPAREN] then .ok (parameters, st)
    else
      match st.expect .IDENTIFIER with
      | .error e => .error e
      | .ok (paramTok, st) =>
        let parameters := parameters ++ [paramTok.value.text]
        if st.matchTok [.COMMA] then parseParamsLoop fuel ctx parameters st.advance
        else if !(st.matchTok [.RPAREN]) then
          .error (pySyntaxError (expectedSepMsg ")" "parameter list"))
        else parseParamsLoop fuel ctx parameters st
termination_by structural fuel

/-- `TengParser._parse_telugu_return_statement`: `value ivvu`. -/
def parseTeluguReturnStatement (fuel : Nat) (ctx : List String) (st : TokenStream) :
    Except PyErr (Stmt × TokenStream) :=
  match fuel with
  | 0 => .error fuelErr
  | fuel + 1 =>
    match parseExpression fuel ctx st with
    | .error e => .error e
    | .ok (value, st) =>
      match st.expect .TELUGU_KEYWORD with
      | .error e => .error e
      | .ok (retTok, st) =>
        if !(retTok.eqStr "return") then
          .error (pySyntaxError ("Expected " ++ quoted "ivvu" ++ " (return), got " ++
            quoted retTok.value.text))
        else .ok (.returnStmt value, st)

/-- `TengParser._parse_return_statement` (the `ivvu` keyword is consumed). -/
def parseReturnStatement (fuel : Nat) (ctx : List String) (st : TokenStream) :
    Except PyErr (Stmt × TokenStream) :=
  match fuel with
  | 0 => .error fuelErr
  | fuel + 1 =>
    if st.matchTok [.NEWLINE] || st.atEnd then .ok (.returnStmt none, st)
    else
      match parseExpression fuel ctx st with
      | .error e => .error e
      | .ok (value, st) => .ok (.returnStmt value, st)

/-- `TengParser._parse_block`. -/
def parseBlock (fuel : Nat) (ctx : List String) (st : TokenStream) :
    Except PyErr (List Stmt × TokenStream) :=
  match fuel with
  | 0 => .error fuelErr
  | fuel + 1 => parseIndentedBlock fuel ctx (getCurrentIndentationLevel ctx st) st
termination_by structural fuel

/-- `TengParser._parse_indented_block`: skip leading newlines, then fall
back to simple-block parsing when `stream.peek()` is `None` (the only way
the `hasattr(..., "lineno")` guard fails for lexer tokens). -/
def parseIndentedBlock (fuel : Nat) (ctx : List String) (baseIndent : Nat)
    (st : TokenStream) : Except PyErr (List Stmt × TokenStream) :=
  match fuel with
  | 0 => .error fuelErr
  | fuel + 1 =>
    let st := skipNewlines st
    match st.peek with
    | none => parseSimpleBlock fuel ctx st
    | some _ => parseIndentedLoop fuel ctx baseIndent [] st
termination_by structural fuel

/-- The indentation-based dedent test inside `_parse_indented_block`'s
loop: the current token's source line exists and its indentation is at or
below the baseline. -/
def indentedBlockDedent (ctx : List String) (t : Token) (baseIndent : Nat) : Bool :=
  match ctx.get? (t.lineno - 1) with
  | some lineText => decide (calcLineIndent lineText ≤ baseIndent)
  | none => false

/-- The statement loop of `_parse_indented_block`. -/
def parseIndentedLoop (fuel : Nat) (ctx : List String) (baseIndent : Nat)
    (acc : List Stmt) (st : TokenStream) : Except PyErr (List Stmt × TokenStream) :=
  match fuel with
  | 0 => .error fuelErr
  | fuel + 1 =>
    if st.atEnd then .ok (acc, st)
    else
      match st.peek with
      | none => .ok (acc, st)
      | some t =>
        if t.type = .NEWLINE then
          if t.hasDoubleNewline then .ok (acc, st.advance)
          else parseIndentedLoop fuel ctx baseIndent acc st.advance
        else if t.type = .TELUGU_KEYWORD && (t.eqStr "else" || t.eqStr "elif") then
          .ok (acc, st)
        else
          if indentedBlockDedent ctx t baseIndent then .ok (acc, st)
          else
            match parseStatement fuel ctx st with
            | .error e => .error e
            | .ok (some s, st2) => parseIndentedLoop fuel ctx baseIndent (acc ++ [s]) st2
            | .ok (none, st2) => .ok (acc, st2)
termination_by structural fuel

/-- `TengParser._parse_simple_block`: the fallback loop ignoring
indentation. -/
def parseSimpleBlock (fuel : Nat) (ctx : List String) (st : TokenStream) :
    Except PyErr (List Stmt × TokenStream) :=
  match fuel with
  | 0 => .error fuelErr
  | fuel + 1 => parseSimpleLoop fuel ctx [] st

def parseSimpleLoop (fuel : Nat) (ctx : List String) (acc : List Stmt)
    (st : TokenStream) : Except PyErr (List Stmt × TokenStream) :=
  match fuel with
  | 0 => .error fuelErr
  | fuel + 1 =>
    if st.atEnd then .ok (acc, st)
    else
      match st.peek with
      | none => .ok (acc, st)
      | some t =>
        if t.type = .NEWLINE then
          if t.hasDoubleNewline then .ok (acc, st.advance)
          else parseSimpleLoop fuel ctx acc st.advance
        else if t.type = .TELUGU_KEYWORD && (t.eqStr "else" || t.eqStr "elif") then
          .ok (acc, st)
        else
          match parseStatement fuel ctx st with
          | .error e => .error e
          | .ok (some s, st2) => parseSimpleLoop fuel ctx (acc ++ [s]) st2
          | .ok (none, st2) => .ok (acc, st2)
termination_by structural fuel

/-- `TengParser._parse_expression_statement`
(`ExpressionStatement.__init__` performs no check, so a `None` expression
is stored as-is). -/
def parseExpressionStatement (fuel : Nat) (ctx : List String) (st : TokenStream) :
    Except PyErr (Stmt × TokenStream) :=
  match fuel with
  | 0 => .error fuelErr
  | fuel + 1 =>
    match parseExpression fuel ctx st with
    | .error e => .error e
    | .ok (e, st) => .ok (.exprStmt e, st)

/-- `TengParser._parse_expression`. -/
def parseExpression (fuel : Nat) (ctx : List String) (st : TokenStream) :
    Except PyErr (Option Expr × TokenStream) :=
  match fuel with
  | 0 => .error fuelErr
  | fuel + 1 => parseLogicalOr fuel ctx st

def parseLogicalOr (fuel : Nat) (ctx : List String) (st : TokenStream) :
    Except PyErr (Option Expr × TokenStream) :=
  match fuel with
  | 0 => .error fuelErr
  | fuel + 1 =>
    match parseLogicalAnd fuel ctx st with
    | .error e => .error e
    | .ok (e, st) => parseLogicalOrLoop fuel ctx e st

def parseLogicalOrLoop (fuel : Nat) (ctx : List String) (expr : Option Expr)
    (st : TokenStream) : Except PyErr (Option Expr × TokenStream) :=
  match fuel with
  | 0 => .error fuelErr
  | fuel + 1 =>
    match st.peek with
    | some t =>
      if t.type = .TELUGU_KEYWORD then
        if t.eqStr "or" then
          match parseLogicalAnd fuel ctx st.advance with
          | .error e => .error e
          | .ok (right, st2) =>
            match mkBinaryOperation expr "or" right with
            | .error e => .error e
            | .ok e2 => parseLogicalOrLoop fuel ctx (some e2) st2
        else .ok (expr, st)
      else .ok (expr, st)
    | none => .ok (expr, st)

def parseLogicalAnd (fuel : Nat) (ctx : List String) (st : TokenStream) :
    Except PyErr (Option Expr × TokenStream) :=
  match fuel with
  | 0 => .error fuelErr
  | fuel + 1 =>
    match parseEquality fuel ctx st with
    | .error e => .error e
    | .ok (e, st) => parseLogicalAndLoop fuel ctx e st

def parseLogicalAndLoop (fuel : Nat) (ctx : List String) (expr : Option Expr)
    (st : TokenStream) : Except PyErr (Option Expr × TokenStream) :=
  match fuel with
  | 0 => .error fuelErr
  | fuel + 1 =>
    match st.peek with
    | some t =>
      if t.type = .TELUGU_KEYWORD then
        if t.eqStr "and" then
          match parseEquality fuel ctx st.advance with
          | .error e => .error e
          | .ok (right, st2) =>
            match mkBinaryOperation expr "and" right with
            | .error e => .error e
            | .ok e2 => parseLogicalAndLoop fuel ctx (some e2) st2
        else .ok (expr, st)
      else .ok (expr, st)
    | none => .ok (expr, st)

def parseEquality (fuel : Nat) (ctx : List String) (st : TokenStream) :
    Except PyErr (Option Expr × TokenStream) :=
  match fuel with
  | 0 => .error fuelErr
  | fuel + 1 =>
    match parseComparison fuel ctx st with
    | .error e => .error e
    | .ok (e, st) => parseEqualityLoop fuel ctx e st

def parseEqualityLoop (fuel : Nat) (ctx : List String) (expr : Option Expr)
    (st : TokenStream) : Except PyErr (Option Expr × TokenStream) :=
  match fuel with
  | 0 => .error fuelErr
  | fuel + 1 =>
    if st.matchTok [.EQUALS, .NE] then
      match st.consume with
      | (some opTok, st2) =>
        match parseComparison fuel ctx st2 with
        | .error e => .error e
        | .ok (right, st3) =>
          match mkBinaryOperationTok expr opTok.value right with
          | .error e => .error e
          | .ok e2 => parseEqualityLoop fuel ctx (some e2) st3
      | (none, st2) => .ok (expr, st2)
    else .ok (expr, st)
termination_by structural fuel

/-- `TengParser._parse_comparison`: note the dead `IN` member of the
match list — the lexer never emits a token of that type. -/
def parseComparison (fuel : Nat) (ctx : List String) (st : TokenStream) :
    Except PyErr (Option Expr × TokenStream) :=
  match fuel with
  | 0 => .error fuelErr
  | fuel + 1 =>
    match parseAddition fuel ctx st with
    | .error e => .error e
    | .ok (e, st) => parseComparisonLoop fuel ctx e st

def parseComparisonLoop (fuel : Nat) (ctx : List String) (expr : Option Expr)
    (st : TokenStream) : Except PyErr (Option Expr × TokenStream) :=
  match fuel with
  | 0 => .error fuelErr
  | fuel + 1 =>
    if st.matchTok [.LT, .LE, .GT, .GE, .IN] then
      match st.consume with
      | (some opTok, st2) =>
        match parseAddition fuel ctx st2 with
        | .error e => .error e
        | .ok (right, st3) =>
          match mkBinaryOperationTok expr opTok.value right with
          | .error e => .error e
          | .ok e2 => parseComparisonLoop fuel ctx (some e2) st3
      | (none, st2) => .ok (expr, st2)
    else .ok (expr, st)

def parseAddition (fuel : Nat) (ctx : List String) (st : TokenStream) :
    Except PyErr (Option Expr × TokenStream) :=
  match fuel with
  | 0 => .error fuelErr
  | fuel + 1 =>
    match parseMultiplication fuel ctx st with
    | .error e => .error e
    | .ok (e, st) => parseAdditionLoop fuel ctx e st

def parseAdditionLoop (fuel : Nat) (ctx : List String) (expr : Option Expr)
    (st : TokenStream) : Except PyErr (Option Expr × TokenStream) :=
  match fuel with
  | 0 => .error fuelErr
  | fuel + 1 =>
    if st.matchTok [.PLUS, .MINUS] then
      match st.consume with
      | (some opTok, st2) =>
        match parseMultiplication fuel ctx st2 with
        | .error e => .error e
        | .ok (right, st3) =>
          match mkBinaryOperationTok expr opTok.value right with
          | .error e => .error e
          | .ok e2 => parseAdditionLoop fuel ctx (some e2) st3
      | (none, st2) => .ok (expr, st2)
    else .ok (expr, st)
termination_by structural fuel

/-- `TengParser._parse_multiplication`: `MODULO` is likewise dead (the
lexer has no rule for `%`). -/
def parseMultiplication (fuel : Nat) (ctx : List String) (st : TokenStream) :
    Except PyErr (Option Expr × TokenStream) :=
  match fuel with
  | 0 => .error fuelErr
  | fuel + 1 =>
    match parseUnary fuel ctx st with
    | .error e => .error e
    | .ok (e, st) => parseMultiplicationLoop fuel ctx e st

def parseMultiplicationLoop (fuel : Nat) (ctx : List String) (expr : Option Expr)
    (st : TokenStream) : Except PyErr (Option Expr × TokenStream) :=
  match fuel with
  | 0 => .error fuelErr
  | fuel + 1 =>
    if st.matchTok [.TIMES, .DIVIDE, .MODULO] then
      match st.consume with
      | (some opTok, st2) =>
        match parseUnary fuel ctx st2 with
        | .error e => .error e
        | .ok (right, st3) =>
          match mkBinaryOperationTok expr opTok.value right with
          | .error e => .error e
          | .ok e2 => parseMultiplicationLoop fuel ctx (some e2) st3
      | (none, st2) => .ok (expr, st2)
    else .ok (expr, st)

def parseUnary (fuel : Nat) (ctx : List String) (st : TokenStream) :
    Except PyErr (Option Expr × TokenStream) :=
  match fuel with
  | 0 => .error fuelErr
  | fuel + 1 =>
    match st.peek with
    | some t =>
      if t.type = .MINUS || t.type = .PLUS then
        match parseUnary fuel ctx st.advance with
        | .error e => .error e
        | .ok (e, st2) =>
          match mkUnaryOperationTok t.value e with
          | .error e2 => .error e2
          | .ok u => .ok (some u, st2)
      else if t.type = .TELUGU_KEYWORD then
        if t.eqStr "not" then
          match parseUnary fuel ctx st.advance with
          | .error e => .error e
          | .ok (e, st2) =>
            match mkUnaryOperation "not" e with
            | .error e2 => .error e2
            | .ok u => .ok (some u, st2)
        else parsePrimary fuel ctx st
      else parsePrimary fuel ctx st
    | none => parsePrimary fuel ctx st
termination_by structural fuel

/-- `TengParser._parse_primary`.  A `TELUGU_KEYWORD` that is not a
boolean literal falls off the `if`/`elif` chain and returns `None`
without consuming the token. -/
def parsePrimary (fuel : Nat) (ctx : List String) (st : TokenStream) :
    Except PyErr (Option Expr × TokenStream) :=
  match fuel with
  | 0 => .error fuelErr
  | fuel + 1 =>
    match st.peek with
    | none => .error (pySyntaxError "Unexpected end of input")
    | some current =>
      if current.type = .NUMBER then
        match mkNumberLiteral current.value with
        | .error e => .error e
        | .ok e => .ok (some e, st.advance)
      else if current.type = .STRING then
        match mkStringLiteral current.value with
        | .error e => .error e
        | .ok e => .ok (some e, st.advance)
      else if current.type = .IDENTIFIER then
        match mkIdentifier current.value with
        | .error e => .error e
        | .ok e =>
          match parsePostfixChain fuel ctx e st.advance with
          | .error e2 => .error e2
          | .ok (e2, st2) => .ok (some e2, st2)
      else if current.type = .TELUGU_KEYWORD then
        if current.eqStr "True" then .ok (some (.booleanLit true), st.advance)
        else if current.eqStr "False" then .ok (some (.booleanLit false), st.advance)
        else .ok (none, st)
      else if current.type = .LPAREN then
        match parseExpression fuel ctx st.advance with
        | .error e => .error e
        | .ok (e, st2) =>
          match st2.expect .RPAREN with
          | .error e2 => .error e2
          | .ok (_, st3) => .ok (e, st3)
      else if current.type = .LBRACKET then
        match parseArgsLoop fuel ctx .RBRACKET (expectedSepMsg "]" "list literal") []
            st.advance with
        | .error e => .error e
        | .ok (elements, st2) =>
          match st2.expect .RBRACKET with
          | .error e => .error e
          | .ok (_, st3) => .ok (some (.listLit elements), st3)
      else
        .error (pySyntaxError ("Unexpected token: " ++ current.type.name ++ " (" ++
          quoted current.value.text ++ ")"))
termination_by structural fuel

/-- The trailing `.name`, `.name(args)`, `(args)` loop inside
`_parse_primary`'s `IDENTIFIER` branch.  A call on a non-identifier
callee stores `str(expr)` — the Python `repr` — as the call name. -/
def parsePostfixChain (fuel : Nat) (ctx : List String) (e : Expr) (st : TokenStream) :
    Except PyErr (Expr × TokenStream) :=
  match fuel with
  | 0 => .error fuelErr
  | fuel + 1 =>
    match st.peek with
    | some t =>
      if t.type = .DOT then
        match st.advance.expect .IDENTIFIER with
        | .error err => .error err
        | .ok (methodTok, st2) =>
          let methodName := methodTok.value.text
          if st2.matchTok [.LPAREN] then
            match parseArgsLoop fuel ctx .RPAREN (expectedSepMsg ")" "method call") []
                st2.advance with
            | .error err => .error err
            | .ok (args, st3) =>
              match st3.expect .RPAREN with
              | .error err => .error err
              | .ok (_, st4) => parsePostfixChain fuel ctx (.methodCall e methodName args) st4
          else parsePostfixChain fuel ctx (.attributeAccess e methodName) st2
      else if t.type = .LPAREN then
        match parseArgsLoop fuel ctx .RPAREN (expectedSepMsg ")" "function call") []
            st.advance with
        | .error err => .error err
        | .ok (args, st2) =>
          match st2.expect .RPAREN with
          | .error err => .error err
          | .ok (_, st3) =>
            let name := match e with | .identifier n => n | _ => pyReprExpr e
            parsePostfixChain fuel ctx (.functionCall name args) st3
      else .ok (e, st)
    | none => .ok (e, st)
termination_by structural fuel

/-- The argument-collecting loop shared (in shape) by postfix print,
function calls, method calls and list literals: parse expressions
separated by commas until the closing delimiter; Python appends the parse
result (possibly `None`) before checking the separator. -/
def parseArgsLoop (fuel : Nat) (ctx : List String) (closeType : TokType)
    (errMsg : String) (args : List (Option Expr)) (st : TokenStream) :
    Except PyErr (List (Option Expr) × TokenStream) :=
  match fuel with
  | 0 => .error fuelErr
  | fuel + 1 =>
    if st.matchTok [closeType] then .ok (args, st)
    else
      match parseExpression fuel ctx st with
      | .error e => .error e
      | .ok (arg, st2) =>
        let args := args ++ [arg]
        if st2.matchTok [.COMMA] then parseArgsLoop fuel ctx closeType errMsg args st2.advance
        else if !(st2.matchTok [closeType]) then .error (pySyntaxError errMsg)
        else parseArgsLoop fuel ctx closeType errMsg args st2

termination_by structural fuel
end

/-- `TengParser.parse`: split the source into lines for indentation
analysis, tokenize, and run the program loop (the lexer never produces
`None` entries, so the `None` filter is the identity). -/
def TengParser.parse (fuel : Nat) (inputText : String) : Except PyErr Program :=
  let sourceLines := pySplitNewline inputText
  match tokenize inputText with
  | .error e => .error e
  | .ok tokens =>
    match parseProgramLoop fuel sourceLines [] ⟨tokens, 0⟩ with
    | .error e => .error e
    | .ok (stmts, _) => .ok ⟨stmts⟩

/-! ### Transpiler (`src/transpiler.py`) -/

/-- The body of the `try` block in `TengTranspiler.transpile`: tokenize
(result unused beyond the `None` filter), parse (always a `Program`, so
the `isinstance` guard passes), render. -/
def transpilePipeline (fuel : Nat) (teluguCode : String) : Except PyErr String :=
  match tokenize teluguCode with
  | .error e => .error e
  | .ok _ =>
    match TengParser.parse fuel teluguCode with
    | .error e => .error e
    | .ok ast => ast.toPython

/-- `TengTranspiler.transpile`: any exception from the pipeline is
re-raised as `SyntaxError(f"Transpilation failed: {str(e)}") from e`
(`str` of an exception is its message). -/
def transpile (fuel : Nat) (teluguCode : String) : Except PyErr String :=
  match transpilePipeline fuel teluguCode with
  | .ok python => .ok python
  | .error e => .error (.mk .syntaxError ("Transpilation failed: " ++ e.msg) (some e))

/-! ### Specification-side definitions used by the theorems -/

/-- The parenthesization condition of `BinaryOperation.to_python` read as
the specification words it: the child is itself a binary operation and
`_needs_parentheses` holds for its operator on that side. -/
def childNeedsParens (parentOp : String) (child : Expr) (isLeft : Bool) : Bool :=
  match child with
  | .binaryOp _ childOp _ => needsParentheses parentOp childOp isLeft
  | _ => false

mutual

/-- Renderability of an expression: every slot of the unchecked argument
lists actually holds an expression (the only way `Expr.toPython` can
fail). -/
def exprRenderOk : Expr → Bool
  | .identifier _ => true
  | .stringLit _ => true
  | .numberLit _ => true
  | .booleanLit _ => true
  | .listLit es => argsRenderOk es
  | .binaryOp l _ r => exprRenderOk l && exprRenderOk r
  | .unaryOp _ e => exprRenderOk e
  | .functionCall _ args => argsRenderOk args
  | .methodCall o _ args => exprRenderOk o && argsRenderOk args
  | .attributeAccess o _ => exprRenderOk o
termination_by structural e => e

def argsRenderOk : List (Option Expr) → Bool
  | [] => true
  | none :: _ => false
  | some e :: rest => exprRenderOk e && argsRenderOk rest
termination_by structural es => es

end

mutual

/-- Renderability of a statement: its expressions are renderable, every
block-bearing node (if/elif/for/while/function) has a non-empty body, and
no `None` sits in an expression slot. -/
def stmtRenderOk : Stmt → Bool
  | .assignment _ v => exprRenderOk v
  | .printStmt args => argsRenderOk args
  | .ifStmt c t e el =>
    exprRenderOk c && !t.isEmpty && blockRenderOk t && blockRenderOk e && elifsRenderOk el
  | .forStmt _ it b => exprRenderOk it && !b.isEmpty && blockRenderOk b
  | .whileStmt c b => exprRenderOk c && !b.isEmpty && blockRenderOk b
  | .funcDef _ _ b => !b.isEmpty && blockRenderOk b
  | .returnStmt none => true
  | .returnStmt (some v) => exprRenderOk v
  | .breakStmt => true
  | .continueStmt => true
  | .exprStmt none => false
  | .exprStmt (some e) => exprRenderOk e
termination_by structural s => s

def blockRenderOk : List Stmt → Bool
  | [] => true
  | s :: rest => stmtRenderOk s && blockRenderOk rest
termination_by structural l => l

def elifsRenderOk : List ElifB → Bool
  | [] => true
  | .mk c b :: rest =>
    exprRenderOk c && !b.isEmpty && blockRenderOk b && elifsRenderOk rest
termination_by structural l => l

end

/-- Success test for the `Except`-modelled renderers. -/
def exceptIsOk {α : Type} : Except PyErr α → Bool
  | .ok _ => true
  | .error _ => false

/-- Signed parenthesis count of a token list, as maintained by
`track_parentheses` over the emitted tokens. -/
def parenBalance : List Token → Int
  | [] => 0
  | t :: rest =>
    (if t.type = .LPAREN then 1 else if t.type = .RPAREN then (-1 : Int) else 0) +
      parenBalance rest

/-- The token stream of the source text `f(x ivvu)`: the only `return`
keyword of the logical line sits at parenthesis depth 1. -/
def returnInsideCallToks : List Token :=
  [⟨.IDENTIFIER, .str "f", 1⟩, ⟨.LPAREN, .str "(", 1⟩, ⟨.IDENTIFIER, .str "x", 1⟩,
   ⟨.TELUGU_KEYWORD, .str "return", 1⟩, ⟨.RPAREN, .str ")", 1⟩]

/-- The token stream of the source text `((x))cheppu ivvu`: a span that
postfix-print detection and postfix-return detection both accept. -/
def printAndReturnToks : List Token :=
  [⟨.LPAREN, .str "(", 1⟩, ⟨.LPAREN, .str "(", 1⟩, ⟨.IDENTIFIER, .str "x", 1⟩,
   ⟨.RPAREN, .str ")", 1⟩, ⟨.RPAREN, .str ")", 1⟩,
   ⟨.TELUGU_KEYWORD, .str "print", 1⟩, ⟨.TELUGU_KEYWORD, .str "return", 1⟩]

/-! ## Theorems for the claims -/

/-- C1: the claim that every block-introducing construct with an empty
body raises a construct-naming `SyntaxError` and returns no tree fails on
the for loop: `t_FOR_LOOP_PATTERN` packs `numbers lo num ki` into a
single `for num in numbers` keyword token, `_parse_preprocessed_for_loop`
performs no empty-body check, and `parse` returns a `Program` holding a
`ForStatement` with an empty body; only later does rendering raise a
`ValueError` whose own message says this "should be caught during
parsing". -/
theorem packed_for_loop_empty_body_returns_tree :
    TengParser.parse 64 "numbers lo num ki:" =
      .ok ⟨[.forStmt "num" (.identifier "numbers") []]⟩ ∧
    transpilePipeline 64 "numbers lo num ki:" =
      .error (pyValueError
        "For loop has empty body - this should be caught during parsing") :=
  ⟨rfl, rfl⟩

/-- C2: `BinaryOperation.to_python` surrounds the operator with one space
on each side and parenthesizes a binary child exactly when the child's
precedence is strictly lower, or equal on the right-hand side; rendering
the `a + b * c` tree gives `"a + b * c"` and the `(a + b) * c` tree gives
`"(a + b) * c"`. -/
theorem binary_operation_spacing_and_parenthesization :
    (∀ parentOp childOp isLeft,
      needsParentheses parentOp childOp isLeft =
        (decide (getPrecedence childOp < getPrecedence parentOp) ||
         (decide (getPrecedence childOp = getPrecedence parentOp) && !isLeft))) ∧
    (∀ (l r : Expr) (op lc rc : String),
      Expr.toPython l = .ok lc → Expr.toPython r = .ok rc →
      Expr.toPython (.binaryOp l op r) =
        .ok ((if childNeedsParens op l true then "(" ++ lc ++ ")" else lc) ++
          " " ++ op ++ " " ++
          (if childNeedsParens op r false then "(" ++ rc ++ ")" else rc))) ∧
    Expr.toPython
      (.binaryOp (.identifier "a") "+" (.binaryOp (.identifier "b") "*" (.identifier "c"))) =
      .ok "a + b * c" ∧
    Expr.toPython
      (.binaryOp (.binaryOp (.identifier "a") "+" (.identifier "b")) "*" (.identifier "c")) =
      .ok "(a + b) * c" := by
  refine ⟨?_, ?_, rfl, rfl⟩
  · intro parentOp childOp isLeft
    unfold needsParentheses
    by_cases h1 : getPrecedence childOp < getPrecedence parentOp
    · simp [h1]
    · by_cases h2 : getPrecedence childOp = getPrecedence parentOp
      · cases isLeft <;> simp [h1, h2]
      · cases isLeft <;> simp [h1, h2]
  · intro l r op lc rc hl hr
    simp only [Expr.toPython]
    rw [hl, hr]
    cases l <;> cases r <;> simp [childNeedsParens]

/-- C2 witness: the general rendering equation applied to the
`a - (b - c)` tree. -/
theorem binary_operation_rendering_witness :
    Expr.toPython
      (.binaryOp (.identifier "a") "-" (.binaryOp (.identifier "b") "-" (.identifier "c"))) =
      .ok ((if childNeedsParens "-" (.identifier "a") true then "(" ++ "a" ++ ")" else "a") ++
        " " ++ "-" ++ " " ++
        (if childNeedsParens "-" (.binaryOp (.identifier "b") "-" (.identifier "c")) false
         then "(" ++ "b - c" ++ ")" else "b - c")) :=
  binary_operation_spacing_and_parenthesization.2.1
    (.identifier "a") (.binaryOp (.identifier "b") "-" (.identifier "c"))
    "-" "a" "b - c" rfl rfl

/-- C3 counterexample: `to_python` is not total over every
constructor-accepted node — an `ElifBlock` built with an empty body list
(its constructor only checks that the body is a list) raises `ValueError`
when rendered. -/
theorem elif_block_empty_body_render_raises :
    ElifB.toPython (.mk (.identifier "x") []) 0 =
      .error (pyValueError
        "For loop has empty body - this should be caught during parsing") :=
  rfl

/-- C4: `_is_telugu_return_statement` tracks parenthesis depth but never
consults it, so for the tokens of `f(x ivvu)` — whose only `return`
keyword sits at depth 1 inside the call's argument list — the predicate
answers `True` and `_parse_statement` dispatches the span to postfix-return
parsing, which the claim says must never happen. -/
theorem return_inside_call_dispatched_as_return :
    tokenize "f(x ivvu)" = .ok returnInsideCallToks ∧
    isTeluguReturnStatement ⟨returnInsideCallToks, 0⟩ = true ∧
    (∀ fuel ctx, parseStatement (fuel + 1) ctx ⟨returnInsideCallToks, 0⟩ =
      mapSomeStmt (parseTeluguReturnStatement fuel ctx ⟨returnInsideCallToks, 0⟩)) :=
  ⟨rfl, rfl, fun _ _ => rfl⟩

/-- C5 counterexample: on the tokens of `((x))cheppu ivvu` both
postfix-print detection and postfix-return detection answer `True`, yet
the dispatcher parses the span as a postfix return (checked first in
`_parse_statement`), failing with the return parser's error — not as a
print statement, contrary to the claimed priority. -/
theorem print_and_return_span_parsed_as_return :
    tokenize "((x))cheppu ivvu" = .ok printAndReturnToks ∧
    isTeluguPostfixPrint ⟨printAndReturnToks, 0⟩ = true ∧
    isTeluguReturnStatement ⟨printAndReturnToks, 0⟩ = true ∧
    parseStatement 64 ["((x))cheppu ivvu"] ⟨printAndReturnToks, 0⟩ =
      .error (pySyntaxError
        ("Expected " ++ quoted "ivvu" ++ " (return), got " ++ quoted "print")) :=
  ⟨rfl, rfl, rfl, rfl⟩

/-- C6 counterexample: for the source literal `"a\"b"` the lexer stores
`a\"b` — the quotes are stripped but the escape sequence is NOT resolved
(the claimed stored value would be `a"b`), and rendering re-escapes the
stored backslash and quote on top, producing `"a\\\"b"` rather than
round-tripping the literal. -/
theorem string_literal_escapes_kept_verbatim :
    tokenize "\"a\\\"b\"" = .ok [⟨.STRING, .str "a\\\"b", 1⟩] ∧
    "a\\\"b" ≠ "a\"b" ∧
    Expr.toPython (.stringLit "a\\\"b") = .ok "\"a\\\\\\\"b\"" :=
  ⟨rfl, by decide, rfl⟩

/-- C8 counterexample: tokenizing `("a"\n)cheppu` consumes its physical
newline inside the `t_PRINT_POSTFIX` match, so the logical line counter
never advances (it ends at 1), refuting the claim that every physical
newline advances it. -/
theorem newline_inside_print_postfix_not_counted :
    tokenizeSt "(\"a\"\n)cheppu" =
      .ok ([⟨.CHEPPU, .str "print(\"a\"\n)", 1⟩], ⟨1, 0, true⟩) ∧
    "(\"a\"\n)cheppu".toList.contains '\n' = true :=
  ⟨rfl, by decide⟩

/-- C9: the relational level of expression parsing matches the token type
`IN`, but the lexer tokenizes the membership marker `lo` as a generic
`TELUGU_KEYWORD` carrying `in` and never emits an `IN`-typed token, so
`x = a lo b` parses as the assignment `x = a` followed by a dangling
expression statement `b` — no relational `BinaryOperation` is ever
built. -/
theorem membership_marker_never_parsed_as_comparison :
    tokenize "x = a lo b" =
      .ok [⟨.IDENTIFIER, .str "x", 1⟩, ⟨.ASSIGN, .str "=", 1⟩,
           ⟨.IDENTIFIER, .str "a", 1⟩, ⟨.TELUGU_KEYWORD, .str "in", 1⟩,
           ⟨.IDENTIFIER, .str "b", 1⟩] ∧
    TengParser.parse 64 "x = a lo b" =
      .ok ⟨[.assignment "x" (.identifier "a"), .exprStmt (some (.identifier "b"))]⟩ :=
  ⟨rfl, rfl⟩

/-- C10: every pipeline failure reaches the caller of `transpile` as a
`SyntaxError` whose message is `Transpilation failed: ` followed by the
original message and which chains the original exception; no other
exception kind escapes. -/
theorem transpile_wraps_all_failures (fuel : Nat) (teluguCode : String) :
    (∃ python, transpile fuel teluguCode = .ok python) ∨
    (∃ e, transpilePipeline fuel teluguCode = .error e ∧
      transpile fuel teluguCode =
        .error (.mk .syntaxError ("Transpilation failed: " ++ e.msg) (some e))) := by
  unfold transpile
  cases h : transpilePipeline fuel teluguCode with
  | ok python => exact .inl ⟨python, rfl⟩
  | error e => exact .inr ⟨e, rfl, rfl⟩

/-! ### Renderability implies successful rendering (for C3) -/

theorem exceptIsOk_iff {α : Type} (x : Except PyErr α) :
    exceptIsOk x = true ↔ ∃ a, x = .ok a := by
  cases x <;> simp [exceptIsOk]

mutual

theorem exprRenderOk_isOk (e : Expr) (h : exprRenderOk e = true) :
    exceptIsOk (Expr.toPython e) = true := by
  cases e with
  | identifier n => rfl
  | stringLit v => rfl
  | numberLit v => rfl
  | booleanLit v => rfl
  | listLit es =>
    simp only [exprRenderOk] at h
    obtain ⟨outs, ho⟩ := (exceptIsOk_iff _).mp (argsRenderOk_isOk es h)
    simp only [Expr.toPython, ho]
    split <;> simp [exceptIsOk]
  | binaryOp l op r =>
    simp only [exprRenderOk, Bool.and_eq_true] at h
    obtain ⟨lo, hl⟩ := (exceptIsOk_iff _).mp (exprRenderOk_isOk l h.1)
    obtain ⟨ro, hr⟩ := (exceptIsOk_iff _).mp (exprRenderOk_isOk r h.2)
    simp [Expr.toPython, hl, hr, exceptIsOk]
  | unaryOp op e =>
    simp only [exprRenderOk] at h
    obtain ⟨o, ho⟩ := (exceptIsOk_iff _).mp (exprRenderOk_isOk e h)
    simp only [Expr.toPython, ho]
    split <;> simp [exceptIsOk]
  | functionCall n args =>
    simp only [exprRenderOk] at h
    obtain ⟨outs, ho⟩ := (exceptIsOk_iff _).mp (argsRenderOk_isOk args h)
    simp only [Expr.toPython, ho]
    split <;> simp [exceptIsOk]
  | methodCall o m args =>
    simp only [exprRenderOk, Bool.and_eq_true] at h
    obtain ⟨oo, hoo⟩ := (exceptIsOk_iff _).mp (exprRenderOk_isOk o h.1)
    obtain ⟨outs, ho⟩ := (exceptIsOk_iff _).mp (argsRenderOk_isOk args h.2)
    simp [Expr.toPython, hoo, ho, exceptIsOk]
  | attributeAccess o a =>
    simp only [exprRenderOk] at h
    obtain ⟨oo, hoo⟩ := (exceptIsOk_iff _).mp (exprRenderOk_isOk o h)
    simp [Expr.toPython, hoo, exceptIsOk]

theorem argsRenderOk_isOk (es : List (Option Expr)) (h : argsRenderOk es = true) :
    exceptIsOk (renderArgs es) = true := by
  match es with
  | [] => rfl
  | none :: rest => simp [argsRenderOk] at h
  | some e :: rest =>
    simp only [argsRenderOk, Bool.and_eq_true] at h
    obtain ⟨o, ho⟩ := (exceptIsOk_iff _).mp (exprRenderOk_isOk e h.1)
    obtain ⟨outs, hos⟩ := (exceptIsOk_iff _).mp (argsRenderOk_isOk rest h.2)
    simp [renderArgs, ho, hos, exceptIsOk]

end

mutual

theorem stmtRenderOk_isOk (s : Stmt) (lvl : Nat) (h : stmtRenderOk s = true) :
    exceptIsOk (Stmt.toPython s lvl) = true := by
  cases s with
  | assignment v value =>
    simp only [stmtRenderOk] at h
    obtain ⟨o, ho⟩ := (exceptIsOk_iff _).mp (exprRenderOk_isOk value h)
    simp [Stmt.toPython, ho, exceptIsOk]
  | printStmt args =>
    simp only [stmtRenderOk] at h
    obtain ⟨outs, ho⟩ := (exceptIsOk_iff _).mp (argsRenderOk_isOk args h)
    simp only [Stmt.toPython, ho]
    split <;> simp [exceptIsOk]
  | ifStmt c t e el =>
    simp only [stmtRenderOk, Bool.and_eq_true] at h
    obtain ⟨⟨⟨⟨hc, ht⟩, htb⟩, heb⟩, hel⟩ := h
    have htt : t.isEmpty = false := by simpa using ht
    obtain ⟨co, hco⟩ := (exceptIsOk_iff _).mp (exprRenderOk_isOk c hc)
    obtain ⟨to2, hto⟩ := (exceptIsOk_iff _).mp (blockRenderOk_isOk t (lvl + 1) htb)
    obtain ⟨eo, heo⟩ := (exceptIsOk_iff _).mp (blockRenderOk_isOk e (lvl + 1) heb)
    obtain ⟨elo, helo⟩ := (exceptIsOk_iff _).mp (elifsRenderOk_isOk el lvl hel)
    simp [Stmt.toPython, hco, hto, heo, helo, htt]
    split <;> simp [exceptIsOk]
  | forStmt v it b =>
    simp only [stmtRenderOk, Bool.and_eq_true] at h
    obtain ⟨⟨hit, hb⟩, hbb⟩ := h
    have hbe : b.isEmpty = false := by simpa using hb
    obtain ⟨io, hio⟩ := (exceptIsOk_iff _).mp (exprRenderOk_isOk it hit)
    obtain ⟨bo, hbo⟩ := (exceptIsOk_iff _).mp (blockRenderOk_isOk b (lvl + 1) hbb)
    simp [Stmt.toPython, hio, hbo, hbe, exceptIsOk]
  | whileStmt c b =>
    simp only [stmtRenderOk, Bool.and_eq_true] at h
    obtain ⟨⟨hc, hb⟩, hbb⟩ := h
    have hbe : b.isEmpty = false := by simpa using hb
    obtain ⟨co, hco⟩ := (exceptIsOk_iff _).mp (exprRenderOk_isOk c hc)
    obtain ⟨bo, hbo⟩ := (exceptIsOk_iff _).mp (blockRenderOk_isOk b (lvl + 1) hbb)
    simp [Stmt.toPython, hco, hbo, hbe, exceptIsOk]
  | funcDef n ps b =>
    simp only [stmtRenderOk, Bool.and_eq_true] at h
    obtain ⟨hb, hbb⟩ := h
    have hbe : b.isEmpty = false := by simpa using hb
    obtain ⟨bo, hbo⟩ := (exceptIsOk_iff _).mp (blockRenderOk_isOk b (lvl + 1) hbb)
    simp [Stmt.toPython, hbo, hbe, exceptIsOk]
  | returnStmt v =>
    cases v with
    | none => rfl
    | some value =>
      simp only [stmtRenderOk] at h
      obtain ⟨o, ho⟩ := (exceptIsOk_iff _).mp (exprRenderOk_isOk value h)
      simp [Stmt.toPython, ho, exceptIsOk]
  | breakStmt => rfl
  | continueStmt => rfl
  | exprStmt oe =>
    cases oe with
    | none => simp [stmtRenderOk] at h
    | some e =>
      simp only [stmtRenderOk] at h
      obtain ⟨o, ho⟩ := (exceptIsOk_iff _).mp (exprRenderOk_isOk e h)
      simp [Stmt.toPython, ho, exceptIsOk]

theorem blockRenderOk_isOk (l : List Stmt) (lvl : Nat) (h : blockRenderOk l = true) :
    exceptIsOk (renderBlockLines l lvl) = true := by
  match l with
  | [] => rfl
  | s :: rest =>
    simp only [blockRenderOk, Bool.and_eq_true] at h
    obtain ⟨o, ho⟩ := (exceptIsOk_iff _).mp (stmtRenderOk_isOk s lvl h.1)
    obtain ⟨os, hos⟩ := (exceptIsOk_iff _).mp (blockRenderOk_isOk rest lvl h.2)
    simp [renderBlockLines, ho, hos, exceptIsOk]

theorem elifsRenderOk_isOk (l : List ElifB) (lvl : Nat) (h : elifsRenderOk l = true) :
    exceptIsOk (renderElifLines l lvl) = true := by
  match l with
  | [] => rfl
  | .mk c b :: rest =>
    simp only [elifsRenderOk, Bool.and_eq_true] at h
    obtain ⟨⟨⟨hc, hb⟩, hbb⟩, hrest⟩ := h
    have hbe : b.isEmpty = false := by simpa using hb
    obtain ⟨co, hco⟩ := (exceptIsOk_iff _).mp (exprRenderOk_isOk c hc)
    obtain ⟨bo, hbo⟩ := (exceptIsOk_iff _).mp (blockRenderOk_isOk b (lvl + 1) hbb)
    obtain ⟨os, hos⟩ := (exceptIsOk_iff _).mp (elifsRenderOk_isOk rest lvl hrest)
    simp [renderElifLines, ElifB.toPython, hco, hbo, hbe, hos, exceptIsOk]

end

theorem programLines_isOk (l : List Stmt) (lvl : Nat) (h : blockRenderOk l = true) :
    exceptIsOk (programLines l lvl) = true := by
  induction l with
  | nil => rfl
  | cons s rest ih =>
    simp only [blockRenderOk, Bool.and_eq_true] at h
    obtain ⟨o, ho⟩ := (exceptIsOk_iff _).mp (stmtRenderOk_isOk s lvl h.1)
    obtain ⟨os, hos⟩ := (exceptIsOk_iff _).mp (ih h.2)
    simp only [programLines, ho, hos]
    split <;> [skip; split] <;> simp [exceptIsOk]

theorem programRenderOk_isOk (p : Program) (lvl : Nat)
    (h : blockRenderOk p.statements = true) :
    exceptIsOk (Program.toPython p lvl) = true := by
  obtain ⟨os, hos⟩ := (exceptIsOk_iff _).mp (programLines_isOk p.statements lvl h)
  unfold Program.toPython
  simp only [hos]
  split <;> simp [exceptIsOk]

/-- C3 (amended): `to_python` is deterministic and pure (it is a function
of the tree alone), and total over every validly-constructed tree in
which each block-bearing node (if/elif/for/while/function body) holds a
non-empty statement list and each expression slot the constructors leave
unchecked actually holds an expression — but not over every node the
constructors accept: an `ElifBlock` with an empty body list renders to a
`ValueError` (see the counterexample). -/
theorem rendering_total_on_renderable_trees :
    (∀ e : Expr, exprRenderOk e = true → ∃ out, Expr.toPython e = .ok out) ∧
    (∀ (s : Stmt) (lvl : Nat), stmtRenderOk s = true →
      ∃ out, Stmt.toPython s lvl = .ok out) ∧
    (∀ (p : Program) (lvl : Nat), blockRenderOk p.statements = true →
      ∃ out, Program.toPython p lvl = .ok out) :=
  ⟨fun e h => (exceptIsOk_iff _).mp (exprRenderOk_isOk e h),
   fun s lvl h => (exceptIsOk_iff _).mp (stmtRenderOk_isOk s lvl h),
   fun p lvl h => (exceptIsOk_iff _).mp (programRenderOk_isOk p lvl h)⟩

/-- C3 witness: totality applied to a concrete well-formed if statement
and a concrete one-statement program. -/
theorem rendering_total_witness :
    (∃ out, Stmt.toPython (.ifStmt (.identifier "x") [.breakStmt] [] []) 0 = .ok out) ∧
    (∃ out, Program.toPython (Program.mk [.assignment "y" (.numberLit (.int 1))]) 0 =
      .ok out) :=
  ⟨rendering_total_on_renderable_trees.2.1 (.ifStmt (.identifier "x") [.breakStmt] [] []) 0 rfl,
   rendering_total_on_renderable_trees.2.2 (Program.mk [.assignment "y" (.numberLit (.int 1))]) 0 rfl⟩

/-! ### Shape lemmas for the lexer matchers (for C6, C7, C8) -/

theorem dropLiteral_shape (lit : List Char) :
    ∀ cs rest, dropLiteral lit cs = some rest → cs = lit ++ rest := by
  induction lit with
  | nil =>
    intro cs rest h
    simp only [dropLiteral, Option.some.injEq] at h
    simp [h]
  | cons l ls ih =>
    intro cs rest h
    cases cs with
    | nil => simp [dropLiteral] at h
    | cons c cs2 =>
      simp only [dropLiteral] at h
      split at h
      · rename_i hc
        subst hc
        simp [ih cs2 rest h]
      · simp at h

theorem takeRun_shape (p : Char → Bool) (cs run rest : List Char)
    (h : takeRun p cs = some (run, rest)) : cs = run ++ rest := by
  unfold takeRun at h
  split at h
  · simp at h
  · rename_i c cs2
    split at h
    · simp only [Option.some.injEq, Prod.mk.injEq] at h
      obtain ⟨rfl, rfl⟩ := h
      simp
    · simp at h

theorem stringBody_shape (l : List Char) :
    ∀ b r, stringBody l = some (b, r) → l = b ++ '"' :: r := by
  induction l using stringBody.induct with
  | case1 => intro b r h; simp [stringBody] at h
  | case2 rest =>
    intro b r h
    simp only [stringBody, Option.some.injEq, Prod.mk.injEq] at h
    obtain ⟨rfl, rfl⟩ := h
    rfl
  | case3 => intro b r h; simp [stringBody] at h
  | case4 rest => intro b r h; simp [stringBody] at h
  | case5 c rest hn body r0 hs ih =>
    intro b r h
    simp only [stringBody, if_neg hn, hs, Option.some.injEq, Prod.mk.injEq] at h
    obtain ⟨rfl, rfl⟩ := h
    simp [ih body r0 hs]
  | case6 c rest hn hs ih =>
    intro b r h
    simp [stringBody, if_neg hn, hs] at h
  | case7 tail => intro b r h; simp [stringBody] at h
  | case8 c rest h1 h2 h3 h4 body r0 hs ih =>
    intro b r h
    have hq : c ≠ '"' := h1
    have hn : c ≠ '\n' := h4
    have hb : c ≠ '\\' := by
      intro hc
      cases rest with
      | nil => exact h2 hc rfl
      | cons x xs => exact h3 x xs hc rfl
    simp only [stringBody, hq, hb, hn, hs, Option.some.injEq, Prod.mk.injEq,
      if_false, reduceCtorEq] at h
    obtain ⟨rfl, rfl⟩ := h
    simp [ih body r0 hs]
  | case9 c rest h1 h2 h3 h4 hs ih =>
    intro b r h
    have hq : c ≠ '"' := h1
    have hn : c ≠ '\n' := h4
    have hb : c ≠ '\\' := by
      intro hc
      cases rest with
      | nil => exact h2 hc rfl
      | cons x xs => exact h3 x xs hc rfl
    simp [stringBody, hq, hb, hn, hs] at h

theorem findSomeRule_mem (l : List (String × TokType)) (cs : List Char)
    (tt : TokType) (rest : List Char)
    (h : l.findSome? (fun rule =>
      (dropLiteral rule.1.toList cs).map (fun r => (rule.2, r))) = some (tt, rest)) :
    ∃ p, p ∈ l ∧ p.2 = tt := by
  induction l with
  | nil => simp [List.findSome?] at h
  | cons a as ih =>
    rw [List.findSome?_cons] at h
    split at h
    · rename_i b hb
      injection h with h
      subst h
      obtain ⟨r0, hr0, hpair⟩ := Option.map_eq_some'.mp hb
      refine ⟨a, List.mem_cons_self a as, ?_⟩
      exact congrArg Prod.fst hpair
    · obtain ⟨p, hp, h2⟩ := ih h
      exact ⟨p, List.mem_cons_of_mem a hp, h2⟩

/-- C5 (amended): whenever the current token is neither a keyword token nor
a packed print token and the postfix-return lookahead succeeds,
`_parse_statement` dispatches the span to postfix-RETURN parsing — the
return branch precedes the postfix-print branch, so a span both
detections accept is handed to the return parser, not the print
parser. -/
theorem return_scan_priority (fuel : Nat) (ctx : List String) (st : TokenStream)
    (t : Token) (hp : st.peek = some t) (h1 : t.type ≠ .TELUGU_KEYWORD)
    (h2 : t.type ≠ .CHEPPU) (h3 : isTeluguReturnStatement st = true) :
    parseStatement (fuel + 1) ctx st =
      mapSomeStmt (parseTeluguReturnStatement fuel ctx st) := by
  unfold parseStatement
  rw [hp]
  simp [h1, h2, h3]

/-- C5 witness: the dispatch-priority theorem applied to the tokens of
`((x))cheppu ivvu`. -/
theorem return_scan_priority_witness :
    parseStatement 64 ["((x))cheppu ivvu"] ⟨printAndReturnToks, 0⟩ =
      mapSomeStmt (parseTeluguReturnStatement 63 ["((x))cheppu ivvu"]
        ⟨printAndReturnToks, 0⟩) :=
  return_scan_priority 63 ["((x))cheppu ivvu"] ⟨printAndReturnToks, 0⟩
    ⟨.LPAREN, .str "(", 1⟩ rfl (by decide) (by decide) rfl

/-- C6 (amended): whenever the string rule matches, the source text at the
match is an opening quote, the stored body, a closing quote; the emitted
`STRING` token stores exactly the text between the quotes — quotes
stripped, escape sequences kept verbatim, no unescaping — and rendering a
string literal re-escapes backslashes and quotes in the stored value and
re-wraps it in double quotes. -/
theorem string_token_strips_quotes_only :
    (∀ (st : LexState) (cs b r : List Char), matchString cs = some (b, r) →
      cs = '"' :: (b ++ '"' :: r) ∧
      lexStep cs st = .ok (some ⟨.STRING, .str (String.mk b), st.lineno⟩, r, st)) ∧
    (∀ v : String, Expr.toPython (.stringLit v) =
      .ok ("\"" ++ pyEscapeString v ++ "\"")) := by
  refine ⟨?_, fun v => rfl⟩
  intro st cs b r h
  unfold matchString at h
  split at h
  · rename_i rest
    have hshape := stringBody_shape rest b r h
    subst hshape
    refine ⟨rfl, ?_⟩
    unfold lexStep
    rw [show matchNumber ('"' :: (b ++ '"' :: r)) = none from rfl,
        show matchString ('"' :: (b ++ '"' :: r)) = stringBody (b ++ '"' :: r) from rfl,
        h]
  · simp at h

/-- C6 witness: the string-rule theorem applied to the source literal
`"ab"`. -/
theorem string_token_strips_quotes_only_witness :
    "\"ab\"".toList = '"' :: ("ab".toList ++ '"' :: ([] : List Char)) ∧
    lexStep "\"ab\"".toList initLexState =
      .ok (some ⟨.STRING, .str (String.mk "ab".toList), 1⟩, [], initLexState) :=
  string_token_strips_quotes_only.1 initLexState "\"ab\"".toList "ab".toList [] rfl

/-- C7: at any position where the multi-word rule matches, the lexer emits
exactly ONE `TELUGU_KEYWORD` token carrying the phrase's translated value
and consumes the whole phrase (first word, internal whitespace, second
word) — the phrase is never split into component tokens; and in the
concrete program `vellu = 1\nmunduku vellu`, which uses the component
word `vellu` as a plain identifier on its first line, that occurrence is
an ordinary `IDENTIFIER` token while the phrase on the second line still
becomes the single translated keyword token. -/
theorem multiword_keywords_atomic :
    (∀ (st : LexState) (cs : List Char) (phrase : String) (rest : List Char),
      matchMultiword cs = some (phrase, rest) →
      ∃ python ws,
        MULTI_WORD_KEYWORDS.lookup phrase = some python ∧
        lexStep cs st = .ok (some ⟨.TELUGU_KEYWORD, .str python, st.lineno⟩, rest, st) ∧
        ((phrase = "munduku vellu" ∧
            cs = "munduku".toList ++ ws ++ "vellu".toList ++ rest) ∨
         (phrase = "unnanta varaku" ∧
            cs = "unnanta".toList ++ ws ++ "varaku".toList ++ rest) ∨
         (phrase = "lekapothe okavela" ∧
            cs = "lekapothe".toList ++ ws ++ "okavela".toList ++ rest))) ∧
    tokenize "vellu = 1\nmunduku vellu" =
      .ok [⟨.IDENTIFIER, .str "vellu", 1⟩, ⟨.ASSIGN, .str "=", 1⟩,
           ⟨.NUMBER, .num 1, 1⟩, ⟨.NEWLINE, .str "\n", 1⟩,
           ⟨.TELUGU_KEYWORD, .str "continue", 2⟩] := by
  refine ⟨?_, rfl⟩
  intro st cs phrase rest h
  have hmw := h
  unfold matchMultiword at h
  split at h
  · rename_i r hm
    simp only [Option.some.injEq, Prod.mk.injEq] at h
    obtain ⟨rfl, rfl⟩ := h
    unfold matchTwoWords at hm
    split at hm
    · simp at hm
    · rename_i r1 hd1
      split at hm
      · simp at hm
      · rename_i w r2 heq2
        have hcs := dropLiteral_shape _ _ _ hd1
        have hr1 := takeRun_shape _ _ _ _ heq2
        have hr2 := dropLiteral_shape _ _ _ hm
        subst hr2
        subst hr1
        subst hcs
        refine ⟨"continue", w, rfl, ?_, .inl ⟨rfl, by simp⟩⟩
        unfold lexStep
        rw [show matchNumber ("munduku".toList ++ (w ++ ("vellu".toList ++ r))) =
              none from rfl,
            show matchString ("munduku".toList ++ (w ++ ("vellu".toList ++ r))) =
              none from rfl,
            show matchPostfixPrint ("munduku".toList ++ (w ++ ("vellu".toList ++ r))) =
              none from rfl,
            hmw]
        rfl
  · split at h
    · rename_i r hm
      simp only [Option.some.injEq, Prod.mk.injEq] at h
      obtain ⟨rfl, rfl⟩ := h
      unfold matchTwoWords at hm
      split at hm
      · simp at hm
      · rename_i r1 hd1
        split at hm
        · simp at hm
        · rename_i w r2 heq2
          have hcs := dropLiteral_shape _ _ _ hd1
          have hr1 := takeRun_shape _ _ _ _ heq2
          have hr2 := dropLiteral_shape _ _ _ hm
          subst hr2
          subst hr1
          subst hcs
          refine ⟨"while", w, rfl, ?_, .inr (.inl ⟨rfl, by simp⟩)⟩
          unfold lexStep
          rw [show matchNumber ("unnanta".toList ++ (w ++ ("varaku".toList ++ r))) =
                none from rfl,
              show matchString ("unnanta".toList ++ (w ++ ("varaku".toList ++ r))) =
                none from rfl,
              show matchPostfixPrint ("unnanta".toList ++ (w ++ ("varaku".toList ++ r))) =
                none from rfl,
              hmw]
          rfl
    · split at h
      · rename_i r hm
        simp only [Option.some.injEq, Prod.mk.injEq] at h
        obtain ⟨rfl, rfl⟩ := h
        unfold matchTwoWords at hm
        split at hm
        · simp at hm
        · rename_i r1 hd1
          split at hm
          · simp at hm
          · rename_i w r2 heq2
            have hcs := dropLiteral_shape _ _ _ hd1
            have hr1 := takeRun_shape _ _ _ _ heq2
            have hr2 := dropLiteral_shape _ _ _ hm
            subst hr2
            subst hr1
            subst hcs
            refine ⟨"elif", w, rfl, ?_, .inr (.inr ⟨rfl, by simp⟩)⟩
            unfold lexStep
            rw [show matchNumber ("lekapothe".toList ++ (w ++ ("okavela".toList ++ r))) =
                  none from rfl,
                show matchString ("lekapothe".toList ++ (w ++ ("okavela".toList ++ r))) =
                  none from rfl,
                show matchPostfixPrint ("lekapothe".toList ++ (w ++ ("okavela".toList ++ r))) =
                  none from rfl,
                hmw]
            rfl
      · simp at h

/-- C7 witness: the atomicity theorem applied to the source text
`munduku vellu` itself. -/
theorem multiword_keywords_atomic_witness :
    ∃ python ws,
      MULTI_WORD_KEYWORDS.lookup "munduku vellu" = some python ∧
      lexStep "munduku vellu".toList initLexState =
        .ok (some ⟨.TELUGU_KEYWORD, .str python, 1⟩, [], initLexState) ∧
      (("munduku vellu" = "munduku vellu" ∧
          "munduku vellu".toList =
            "munduku".toList ++ ws ++ "vellu".toList ++ ([] : List Char)) ∨
       ("munduku vellu" = "unnanta varaku" ∧
          "munduku vellu".toList =
            "unnanta".toList ++ ws ++ "varaku".toList ++ ([] : List Char)) ∨
       ("munduku vellu" = "lekapothe okavela" ∧
          "munduku vellu".toList =
            "lekapothe".toList ++ ws ++ "okavela".toList ++ ([] : List Char))) :=
  multiword_keywords_atomic.1 initLexState "munduku vellu".toList "munduku vellu" [] rfl

/-- C8 (amended): when the newline rule fires (the current character is a
physical newline), the logical line counter advances by the length of the
consumed newline run, and a `NEWLINE` token is emitted exactly when the
parenthesis depth is zero (inside parentheses the match is discarded);
moreover across every lexer rule, an emitted token of type `NEWLINE`
implies the parenthesis depth at that point was zero. -/
theorem newline_rule_advances_and_depth_zero :
    (∀ (st : LexState) (tl : List Char),
      lexStep ('\n' :: tl) st =
        if st.parenCount = 0 then
          .ok (some ⟨.NEWLINE, .str (String.mk ('\n' :: tl.takeWhile (fun c => c = '\n'))),
                 st.lineno⟩,
               tl.dropWhile (fun c => c = '\n'),
               ⟨st.lineno + ('\n' :: tl.takeWhile (fun c => c = '\n')).length,
                st.parenCount, true⟩)
        else
          .ok (none, tl.dropWhile (fun c => c = '\n'),
               ⟨st.lineno + ('\n' :: tl.takeWhile (fun c => c = '\n')).length,
                st.parenCount, true⟩)) ∧
    (∀ (cs : List Char) (st : LexState) (t : Token) (rest : List Char) (st2 : LexState),
      lexStep cs st = .ok (some t, rest, st2) → t.type = .NEWLINE →
      st.parenCount = 0) := by
  refine ⟨fun st tl => rfl, ?_⟩
  intro cs st t rest st2 h ht
  unfold lexStep at h
  try dsimp only [] at h
  repeat' split at h
  all_goals try simp only [Except.ok.injEq, Prod.mk.injEq, Option.some.injEq,
    reduceCtorEq, false_and, and_false] at h
  all_goals try (obtain ⟨rfl, -, rfl⟩ := h)
  all_goals try (simp at ht)
  all_goals try assumption
  rename_i tt rest1 hsr
  subst ht
  unfold matchStringRule at hsr
  obtain ⟨p, hp, hpt⟩ := findSomeRule_mem _ _ _ _ hsr
  have hall : ∀ q ∈ stringRules, q.2 ≠ TokType.NEWLINE := by decide
  exact absurd hpt (hall p hp)

/-- C8 witness: the newline theorem's depth clause applied to tokenizing a
single newline character from the initial state. -/
theorem newline_rule_witness :
    lexStep ['\n'] initLexState =
      .ok (some ⟨.NEWLINE, .str "\n", 1⟩, [], ⟨2, 0, true⟩) ∧
    initLexState.parenCount = 0 :=
  ⟨rfl, newline_rule_advances_and_depth_zero.2 ['\n'] initLexState
    ⟨.NEWLINE, .str "\n", 1⟩ [] ⟨2, 0, true⟩ rfl rfl⟩

end BrahmicEngine
